import Mathlib

/-!
Shallow embedding of the `serbyxp/ble` firmware core (device configuration,
UART/WebSocket transports, WiFi management and the BLE command processor),
together with theorems settling the specification claims against it.

Conventions:
* raw bytes are modelled as `Nat` (a newline is `10`, a carriage return `13`);
* C++ `String` values are Lean `String`s;
* stateful functions become pure functions from an explicit state to a new
  state plus a list of externally visible actions/emissions;
* the FreeRTOS queue send is modelled by a `Bool` input saying whether the
  send succeeded (queue not full).
-/

set_option linter.unusedVariables false

/-- Transport selector, from `device_config.h` (`enum class TransportType`). -/
inductive TransportType
  | Uart
  | Websocket
  deriving DecidableEq, Repr

/-- `UART_BAUD_DEFAULT` from `device_config.h`. -/
def UART_BAUD_DEFAULT : Nat := 115200

/-- `WifiCredentials` from `device_config.h`. -/
structure WifiCredentials where
  ssid : String
  password : String
  deriving DecidableEq, Repr

/-- `DeviceConfig` from `device_config.h`, extended with the BLE identity
fields that `device_config.cpp` reads and writes. -/
structure DeviceConfig where
  transport : TransportType := .Websocket
  uartBaudRate : Nat := UART_BAUD_DEFAULT
  wifi : WifiCredentials := ⟨"", ""⟩
  hasWifiCredentials : Bool := false
  bleDeviceName : String := ""
  hasBleDeviceName : Bool := false
  bleManufacturerName : String := ""
  hasBleManufacturerName : Bool := false
  deriving DecidableEq, Repr

/-- `SUPPORTED_BAUD_RATES` from `device_config.cpp`. -/
def SUPPORTED_BAUD_RATES : List Nat :=
  [9600, 19200, 38400, 57600, 115200, 230400, 460800, 921600]

/-- `isSupportedUartBaudRate` from `device_config.cpp`: linear scan of the
supported table. -/
def isSupportedUartBaudRate (baudRate : Nat) : Bool :=
  SUPPORTED_BAUD_RATES.any (fun supported => supported == baudRate)

/-- `sanitizeBaudRate` from `device_config.cpp`: keep a supported value,
otherwise fall back to the default. -/
def sanitizeBaudRate (value : Nat) : Nat :=
  if SUPPORTED_BAUD_RATES.any (fun supported => supported == value) then value
  else UART_BAUD_DEFAULT

/-- `sanitizeTransport` from `device_config.cpp`: byte 0 is Uart, byte 1 is
Websocket, anything else collapses to Websocket. -/
def sanitizeTransport (value : Nat) : TransportType :=
  if value = 0 then .Uart
  else if value = 1 then .Websocket
  else .Websocket

/-- Wifi field length caps used by `readPreferenceString` in
`loadDeviceConfig` (the station manager caps: 32-byte SSID, 64-byte
password). -/
def WIFI_SSID_MAX_LENGTH : Nat := 32

/-- Password length cap, cf. `WIFI_SSID_MAX_LENGTH`. -/
def WIFI_PASSWORD_MAX_LENGTH : Nat := 64

/-- The persisted key/value store contents read by `loadDeviceConfig`
(namespace `device`): a missing key is `none`. -/
structure DevicePrefs where
  transportByte : Option Nat := none
  uartBaud : Option Nat := none
  ssid : Option String := none
  password : Option String := none
  bleName : Option String := none
  bleManuf : Option String := none
  deriving Repr

/-- `readPreferenceString` from `device_config.cpp`: missing key yields the
empty string, an over-long value is truncated to `maxLength` (0 = no cap). -/
def readPreferenceString (stored : Option String) (maxLength : Nat) : String :=
  match stored with
  | none => ""
  | some value =>
      if maxLength > 0 && value.length > maxLength then
        ⟨value.toList.take maxLength⟩
      else value

/-- `loadDeviceConfig` from `device_config.cpp`, for the case where the
preference namespace opened successfully (the function then always returns
true; this model returns the loaded configuration). -/
def loadDeviceConfig (prefs : DevicePrefs) : DeviceConfig :=
  { transport := sanitizeTransport (prefs.transportByte.getD 1)
    uartBaudRate := sanitizeBaudRate (prefs.uartBaud.getD UART_BAUD_DEFAULT)
    wifi := ⟨readPreferenceString prefs.ssid WIFI_SSID_MAX_LENGTH,
             readPreferenceString prefs.password WIFI_PASSWORD_MAX_LENGTH⟩
    hasWifiCredentials :=
      (readPreferenceString prefs.ssid WIFI_SSID_MAX_LENGTH).length > 0
    bleDeviceName := readPreferenceString prefs.bleName 0
    hasBleDeviceName := (readPreferenceString prefs.bleName 0).length > 0
    bleManufacturerName := readPreferenceString prefs.bleManuf 0
    hasBleManufacturerName := (readPreferenceString prefs.bleManuf 0).length > 0 }


/-- ASCII lower-casing of one character (Arduino `tolower`). -/
def lowerAsciiChar (c : Char) : Char :=
  if 65 ≤ c.toNat && c.toNat ≤ 90 then Char.ofNat (c.toNat + 32) else c

/-- ASCII lower-casing (Arduino `String::toLowerCase` /
`equalsIgnoreCase`). -/
def lowerAscii (s : String) : String := ⟨s.toList.map lowerAsciiChar⟩

/-- ASCII upper-casing of one character (Arduino `toupper`). -/
def upperAsciiChar (c : Char) : Char :=
  if 97 ≤ c.toNat && c.toNat ≤ 122 then Char.ofNat (c.toNat - 32) else c

/-- ASCII upper-casing (Arduino `String::toUpperCase`). -/
def upperAscii (s : String) : String := ⟨s.toList.map upperAsciiChar⟩

/-- Whitespace predicate used by Arduino `String::trim`. -/
def isAsciiSpace (c : Char) : Bool := c.toNat ≤ 32

/-- Arduino `String::trim`: strip leading and trailing whitespace. -/
def trimAscii (s : String) : String :=
  ⟨((s.toList.dropWhile isAsciiSpace).reverse.dropWhile isAsciiSpace).reverse⟩

/-- Character-list comparison behind `String::startsWith`. -/
def startsWithChars : List Char → List Char → Bool
  | [], _ => true
  | _ :: _, [] => false
  | p :: ps, c :: cs => p == c && startsWithChars ps cs

/-- Arduino `String::startsWith`. -/
def startsWithAscii (s marker : String) : Bool :=
  startsWithChars marker.toList s.toList

/-- Arduino `String::substring(n)`: drop the first `n` characters. -/
def dropAscii (s : String) (n : Nat) : String := ⟨s.toList.drop n⟩

/-- `parseTransportType` from `device_config.cpp` (case-insensitive match of
the two recognized transport strings). -/
def parseTransportType (value : String) : Option TransportType :=
  if lowerAscii value = "uart" then some .Uart
  else if lowerAscii value = "websocket" then some .Websocket
  else none

/-! ### A model of parsed JSON documents (ArduinoJson values)

`deserializeJson` is an external library primitive; the handlers receive an
already-parsed document. `Json.member` models `doc["key"]` (null on a missing
key or a non-object), and the accessors model the `as<T>` / `is<T>`
conversions used by the firmware. -/

/-- Parsed JSON value. -/
inductive Json
  | null
  | bool (b : Bool)
  | num (n : Int)
  | str (s : String)
  | arr (items : List Json)
  | obj (fields : List (String × Json))
  deriving Repr

/-- `doc["key"]`: first matching field of an object, `null` otherwise. -/
def Json.member : Json → String → Json
  | .obj fields, key =>
      match fields.find? (fun f => f.1 == key) with
      | some f => f.2
      | none => .null
  | _, _ => .null

/-- `isNull()`. -/
def Json.isNull : Json → Bool
  | .null => true
  | _ => false

/-- `is<JsonArrayConst>()` / `is<JsonArray>()`. -/
def Json.isArr : Json → Bool
  | .arr _ => true
  | _ => false

/-- `is<const char *>()`. -/
def Json.isStr : Json → Bool
  | .str _ => true
  | _ => false

/-- `is<int>()`. -/
def Json.isInt : Json → Bool
  | .num _ => true
  | _ => false

/-- `as<const char *>()`: the string, or a null pointer for other kinds. -/
def Json.asStr : Json → Option String
  | .str s => some s
  | _ => none

/-- `value | "default"` (or `String(value.as<const char *>())` giving an
empty string for a null pointer). -/
def Json.asStrOr (j : Json) (d : String) : String := (j.asStr).getD d

/-- `as<int>()`: integers pass through, booleans convert, everything else is
zero. -/
def Json.asInt : Json → Int
  | .num n => n
  | .bool b => if b then 1 else 0
  | _ => 0

/-- `as<bool>()`. -/
def Json.asBool : Json → Bool
  | .bool b => b
  | .num n => n != 0
  | _ => false

/-- `as<String>()`: convertible scalars are rendered, other kinds give an
empty string. -/
def Json.asArduinoString : Json → String
  | .str s => s
  | .num n => toString n
  | .bool b => if b then "true" else "false"
  | _ => ""

/-- `is<uint32_t>()`: a non-negative integer below `2^32`. -/
def Json.isUInt32 : Json → Bool
  | .num n => decide (0 ≤ n ∧ n < 4294967296)
  | _ => false

/-! ### WebSocket transport (`transport_websocket.cpp`)

State flags and the configuration POST handler. The HTTP/DNS/WebSocket
polling plumbing is kept as opaque actions; the WiFi primitives appear as
explicit actions so that theorems can inspect which networks the firmware
associates to and what it persists. -/

/-- `WIFI_CONNECT_TIMEOUT_MS` from `transport_websocket.cpp`. -/
def WIFI_CONNECT_TIMEOUT_MS : Nat := 20000

/-- `WIFI_RETRY_INTERVAL_MS` from `transport_websocket.cpp`: the fixed
interval gating station reconnect attempts. -/
def WIFI_RETRY_INTERVAL_MS : Nat := 30000

/-- The module-level flags of `transport_websocket.cpp`
(`g_apActive`, `g_dnsActive`, `g_staConnected`, `g_staConnecting`,
`g_lastConnectionAttempt`). -/
structure WsTransportState where
  apActive : Bool := false
  dnsActive : Bool := false
  staConnected : Bool := false
  staConnecting : Bool := false
  lastConnectionAttempt : Nat := 0
  deriving DecidableEq, Repr

/-- Environment outcomes for the fallible WiFi primitives used by
`transport_websocket.cpp` (`WiFi.softAP` result, DNS server start result). -/
structure WsEnv where
  apStartOk : Bool := true
  dnsStartOk : Bool := true
  deriving Repr

/-- Externally visible actions of the WebSocket transport. -/
inductive WsAction
  | wifiBegin (ssid password : String)
  | wifiDisconnect
  | softApStart (ssid : String)
  | softApStop
  | persistConfig (config : DeviceConfig)
  | notifyUartConfigChanged
  deriving DecidableEq, Repr

/-- `startAccessPoint` from `transport_websocket.cpp`: no-op when the AP is
already up, otherwise bring up the soft-AP and (on success) the captive
DNS. -/
def startAccessPoint (env : WsEnv) (apSsid : String) (st : WsTransportState) :
    WsTransportState × List WsAction :=
  if st.apActive then (st, [])
  else if !env.apStartOk then (st, [])
  else ({ st with apActive := true, dnsActive := env.dnsStartOk },
        [.softApStart apSsid])

/-- `connectToConfiguredNetwork` from `transport_websocket.cpp`: begin an
association attempt with the stored credentials unless one is already in
flight or there are no credentials. -/
def connectToConfiguredNetwork (config : DeviceConfig) (now : Nat)
    (st : WsTransportState) : WsTransportState × List WsAction :=
  if !config.hasWifiCredentials || config.wifi.ssid == "" then (st, [])
  else if st.staConnecting then (st, [])
  else ({ st with lastConnectionAttempt := now,
                  staConnecting := true, staConnected := false },
        [.wifiBegin config.wifi.ssid config.wifi.password])

/-- HTTP response of a configuration handler. -/
inductive HttpResponse
  | ok
  | error (code : Nat) (message : String)
  deriving DecidableEq, Repr

/-- Whether a response is an error response. -/
def HttpResponse.isError : HttpResponse → Bool
  | .ok => false
  | .error _ _ => true

/-- The UART and WiFi phases of `handleConfigPost` (everything after the
transport-field handling), over the configuration `config1` left by the
transport phase. -/
def handleConfigUartWifi (doc : Json) (config1 : DeviceConfig)
    (configChanged1 : Bool) (env : WsEnv) (apSsid : String) (now : Nat)
    (st0 : WsTransportState) :
    HttpResponse × DeviceConfig × WsTransportState × List WsAction :=
    -- Handle UART config
    let uartStep :
        Option (HttpResponse × DeviceConfig × WsTransportState × List WsAction)
          × DeviceConfig × Bool × Bool :=
      if !(doc.member "uart").isNull then
        let uart := doc.member "uart"
        if !(uart.member "baud").isNull then
          if !(uart.member "baud").isUInt32 then
            (some (.error 400 "Invalid UART baud rate", config1, st0, []),
             config1, configChanged1, false)
          else
            let newBaud := (uart.member "baud").asInt.toNat
            if !isSupportedUartBaudRate newBaud then
              (some (.error 400 "Unsupported UART baud rate", config1, st0, []),
               config1, configChanged1, false)
            else if config1.uartBaudRate ≠ newBaud then
              (none, { config1 with uartBaudRate := newBaud }, true, true)
            else (none, config1, configChanged1, false)
        else (none, config1, configChanged1, false)
      else (none, config1, configChanged1, false)
    match uartStep with
    | (some early, _, _, _) => early
    | (none, config2, configChanged2, uartChanged) =>
      -- Handle WiFi config
      let wifiStep : DeviceConfig × Bool × Bool :=
        if !(doc.member "wifi").isNull then
          let wifi := doc.member "wifi"
          let forget := !(wifi.member "forget").isNull
              && (wifi.member "forget").asBool
          if forget then
            if config2.hasWifiCredentials || !(config2.wifi.ssid == "") then
              ({ config2 with hasWifiCredentials := false, wifi := ⟨"", ""⟩ },
               true, true)
            else (config2, configChanged2, false)
          else
            let hasSsid := !(wifi.member "ssid").isNull
            let hasPassword := !(wifi.member "password").isNull
            let newSsid :=
              if hasSsid then (wifi.member "ssid").asStrOr ""
              else config2.wifi.ssid
            let newPassword :=
              if hasPassword then (wifi.member "password").asStrOr ""
              else config2.wifi.password
            let newHasCredentials := newSsid.length > 0
            if hasSsid || hasPassword then
              if newHasCredentials then
                let ssidChanged := config2.wifi.ssid ≠ newSsid
                let passwordChanged :=
                  hasPassword && config2.wifi.password ≠ newPassword
                if ssidChanged || passwordChanged
                    || !config2.hasWifiCredentials then
                  ({ config2 with wifi := ⟨newSsid, newPassword⟩,
                                  hasWifiCredentials := true }, true, true)
                else (config2, configChanged2, false)
              else if config2.hasWifiCredentials then
                ({ config2 with hasWifiCredentials := false, wifi := ⟨"", ""⟩ },
                 true, true)
              else (config2, configChanged2, false)
            else (config2, configChanged2, false)
        else (config2, configChanged2, false)
      match wifiStep with
      | (config3, configChanged3, wifiChanged) =>
        let saveActions : List WsAction :=
          if configChanged3 then [.persistConfig config3] else []
        let uartActions : List WsAction :=
          if uartChanged then [.notifyUartConfigChanged] else []
        let (st1, wifiActions) :=
          if wifiChanged then
            if config3.hasWifiCredentials && !(config3.wifi.ssid == "") then
              let (st', acts) := connectToConfiguredNetwork config3 now st0
              (st', [WsAction.wifiDisconnect] ++ acts)
            else
              let stCleared := { st0 with staConnected := false,
                                          staConnecting := false }
              if !stCleared.apActive then
                let (st', acts) := startAccessPoint env apSsid stCleared
                (st', [WsAction.wifiDisconnect] ++ acts)
              else (stCleared, [WsAction.wifiDisconnect])
          else (st0, [])
        (.ok, config3, st1, saveActions ++ uartActions ++ wifiActions)

/-- `handleConfigPost` from `transport_websocket.cpp` (lines 382-553), for a
request whose body parsed into `doc`. Produces the response, the mutated
in-memory configuration, the updated transport state and the action list.
Mutations performed before an early error return stay visible, exactly as
they do on the shared `DeviceConfig` reference in the source: the transport
phase runs first and hands its (possibly mutated) configuration to
`handleConfigUartWifi`. -/
def handleConfigPost (doc : Json) (config : DeviceConfig) (env : WsEnv)
    (apSsid : String) (now : Nat) (st0 : WsTransportState) :
    HttpResponse × DeviceConfig × WsTransportState × List WsAction :=
  -- Handle transport change
  if !(doc.member "transport").isNull then
    match parseTransportType ((doc.member "transport").asArduinoString) with
    | none => (.error 400 "Unsupported transport option", config, st0, [])
    | some newTransport =>
        if config.transport ≠ newTransport then
          handleConfigUartWifi doc { config with transport := newTransport }
            true env apSsid now st0
        else handleConfigUartWifi doc config false env apSsid now st0
  else handleConfigUartWifi doc config false env apSsid now st0

/-- `websocketTransportLoop` from `transport_websocket.cpp` (lines 761-823):
one control-loop tick. `statusConnected` is `WiFi.status() == WL_CONNECTED`
for this tick, `now` is `millis()`. -/
def websocketTransportLoop (config : DeviceConfig) (env : WsEnv)
    (apSsid : String) (statusConnected : Bool) (now : Nat)
    (st0 : WsTransportState) : WsTransportState × List WsAction :=
  let (st1, acts1) :=
    if st0.staConnecting then
      if statusConnected then
        ({ st0 with staConnecting := false, staConnected := true }, ([] : List WsAction))
      else if now - st0.lastConnectionAttempt > WIFI_CONNECT_TIMEOUT_MS then
        ({ st0 with staConnecting := false, staConnected := false }, [])
      else (st0, [])
    else if st0.staConnected && !statusConnected then
      let st' := { st0 with staConnected := false }
      if !st'.apActive then startAccessPoint env apSsid st'
      else (st', [])
    else if !st0.staConnected && !st0.staConnecting then
      if config.hasWifiCredentials
          && now - st0.lastConnectionAttempt > WIFI_RETRY_INTERVAL_MS then
        connectToConfiguredNetwork config now st0
      else (st0, [])
    else (st0, [])
  if !st1.staConnected && !st1.apActive then
    let (st2, acts2) := startAccessPoint env apSsid st1
    (st2, acts1 ++ acts2)
  else (st1, acts1)

/-- Iterate `websocketTransportLoop` over a list of `(statusConnected, now)`
ticks, tagging every emitted action with the tick's `now`. -/
def runWsLoop (config : DeviceConfig) (env : WsEnv) (apSsid : String)
    (st : WsTransportState) :
    List (Bool × Nat) → WsTransportState × List (Nat × WsAction)
  | [] => (st, [])
  | (status, now) :: rest =>
      let (st', acts) := websocketTransportLoop config env apSsid status now st
      let (stFinal, tail) := runWsLoop config env apSsid st' rest
      (stFinal, acts.map (fun a => (now, a)) ++ tail)

/-! ### Command messages (`command_message.h`) and queue producers -/

/-- `COMMAND_MESSAGE_MAX_LENGTH` from `command_message.h`. -/
def COMMAND_MESSAGE_MAX_LENGTH : Nat := 512

/-- `CommandMessage` from `command_message.h`: a length and the fixed
513-byte payload buffer (including the NUL terminator slot). -/
structure CommandMessage where
  length : Nat
  payload : List Nat
  deriving DecidableEq, Repr

/-- Building a `CommandMessage` from the assembled bytes: the bytes are
copied into the zero-initialised buffer and `payload[length]` is set to NUL
(`toCharArray` in the UART producer, `memcpy` plus explicit NUL in the
WebSocket producer). -/
def commandMessageOfBytes (bytes : List Nat) : CommandMessage :=
  { length := bytes.length
    payload := bytes ++ List.replicate (COMMAND_MESSAGE_MAX_LENGTH + 1 - bytes.length) 0 }

/-- A consumer-safe message: the text fits the buffer and is NUL-terminated
at index `length` inside the 513-byte buffer. -/
def CommandMessage.wellFormed (m : CommandMessage) : Prop :=
  m.length ≤ COMMAND_MESSAGE_MAX_LENGTH ∧
  m.payload.length = COMMAND_MESSAGE_MAX_LENGTH + 1 ∧
  m.payload.get? m.length = some 0

instance (m : CommandMessage) : Decidable m.wellFormed := by
  unfold CommandMessage.wellFormed; infer_instance

/-! ### UART transport (`transport_uart.cpp`)

The byte-oriented line assembler. `g_buffer` is the byte list; serial writes
of the two canned error strings become `UartEmit` values; a successful
`xQueueSend` is modelled by `queueAccepts`. -/

/-- Serial error emissions of the UART transport
(the canned `Input too long` / `Command queue full` JSON error lines). -/
inductive UartEmit
  | inputTooLong
  | queueFull
  deriving DecidableEq, Repr

/-- One character of the `uartTransportLoop` read loop: carriage returns are
ignored, a newline flushes a non-empty buffer into the queue, an overflowing
buffer is reported and discarded, anything else is appended. -/
def uartStep (queuePresent queueAccepts : Bool) (buffer : List Nat) (c : Nat) :
    List Nat × List UartEmit × List CommandMessage :=
  if c = 13 then (buffer, [], [])
  else if c = 10 then
    if buffer.length > 0 && queuePresent then
      if queueAccepts then ([], [], [commandMessageOfBytes buffer])
      else ([], [.queueFull], [])
    else ([], [], [])
  else if buffer.length ≥ COMMAND_MESSAGE_MAX_LENGTH then
    ([], [.inputTooLong], [])
  else (buffer ++ [c], [], [])

/-- The body of the `while (Serial.available())` loop of
`uartTransportLoop`, over a list of available bytes. -/
def uartRun (queuePresent queueAccepts : Bool) (buffer : List Nat) :
    List Nat → List Nat × List UartEmit × List CommandMessage
  | [] => (buffer, [], [])
  | c :: rest =>
      let (b1, e1, m1) := uartStep queuePresent queueAccepts buffer c
      let (b2, e2, m2) := uartRun queuePresent queueAccepts b1 rest
      (b2, e1 ++ e2, m1 ++ m2)

/-- Module state of `transport_uart.cpp` (`g_buffer`, `g_lastBaudRate`,
`g_lastTransport`). -/
structure UartState where
  buffer : List Nat := []
  lastBaudRate : Nat := UART_BAUD_DEFAULT
  lastTransport : TransportType := .Uart
  deriving DecidableEq, Repr

/-- `uartTransportLoop` from `transport_uart.cpp`: when the active transport
is not UART all pending serial input is drained and discarded (the buffer is
left as is); otherwise the available bytes run through the line
assembler. -/
def uartTransportLoop (config : DeviceConfig) (queuePresent queueAccepts : Bool)
    (input : List Nat) (st : UartState) :
    UartState × List UartEmit × List CommandMessage :=
  if config.transport ≠ .Uart then (st, [], [])
  else
    let (b, e, m) := uartRun queuePresent queueAccepts st.buffer input
    ({ st with buffer := b }, e, m)

/-- Serial peripheral actions of `uartTransportHandleConfigChange`. -/
inductive SerialAction
  | reinitAtBaud (baud : Nat)
  | flushInput
  deriving DecidableEq, Repr

/-- `uartTransportHandleConfigChange` from `transport_uart.cpp`: re-init the
serial peripheral on a baud change, discard the assembly buffer on any
transport or baud change, and drain input when leaving UART mode. -/
def uartTransportHandleConfigChange (uartSettingsChanged : Bool)
    (config : DeviceConfig) (st : UartState) : UartState × List SerialAction :=
  let transportChanged := config.transport ≠ st.lastTransport
  let baudChanged := uartSettingsChanged || config.uartBaudRate ≠ st.lastBaudRate
  let (st1, acts1) :=
    if baudChanged then
      ({ st with lastBaudRate := config.uartBaudRate },
       [SerialAction.reinitAtBaud config.uartBaudRate, SerialAction.flushInput])
    else (st, [])
  let st2 := if transportChanged || baudChanged then { st1 with buffer := [] } else st1
  let acts2 :=
    if transportChanged && config.transport ≠ .Uart then
      acts1 ++ [SerialAction.flushInput]
    else acts1
  ({ st2 with lastTransport := config.transport }, acts2)

/-! ### WebSocket command producer (`handleWebsocketEvent`, text frames) -/

/-- Per-client error emissions of the WebSocket text-frame handler. -/
inductive WsClientEmit
  | transportDisabled
  | tooLong
  | queueFull
  deriving DecidableEq, Repr

/-- The `WStype_TEXT` case of `handleWebsocketEvent` from
`transport_websocket.cpp`: reject when the WebSocket transport is disabled,
drop empty frames, report oversize frames, otherwise enqueue a
NUL-terminated copy of the frame. -/
def handleWebsocketText (config : DeviceConfig) (queuePresent queueAccepts : Bool)
    (payload : List Nat) : List WsClientEmit × List CommandMessage :=
  if config.transport ≠ .Websocket then ([.transportDisabled], [])
  else if payload.length = 0 then ([], [])
  else if payload.length > COMMAND_MESSAGE_MAX_LENGTH then ([.tooLong], [])
  else if !queuePresent then ([], [])
  else if queueAccepts then ([], [commandMessageOfBytes payload])
  else ([.queueFull], [])

/-! ### The monolithic coordinator (`main.cpp`)

`main.cpp` carries its own transport switch (`applyTransportMode`) and its
own UART line pump (`transportPumpTask`); commands are handed straight to
`processCommand`. Only the pieces claim C3 exercises are embedded: the mode
switch and the UART branch of the pump. -/

/-- `TransportMode` from `main.cpp`. -/
inductive TransportMode
  | Uart
  | Websocket
  deriving DecidableEq, Repr

/-- The `main.cpp` globals touched by the transport switch and the UART
pump: `activeTransportMode`, `serialActive`, `uartBaudRate`, `inputBuffer`,
and the websocket command queue contents. -/
structure MainTransportState where
  mode : TransportMode := .Uart
  serialActive : Bool := false
  uartBaudRate : Nat := UART_BAUD_DEFAULT
  inputBuffer : List Nat := []
  commandQueue : List (List Nat) := []
  deriving DecidableEq, Repr

/-- Observable actions of the `main.cpp` transport coordinator. -/
inductive MainAction
  | serialBegin (baud : Nat)
  | serialEnd
  | closeWebsocket
  | resetQueues
  | sendEvent (name detail : String)
  deriving DecidableEq, Repr

/-- `applyTransportMode` from `main.cpp` (lines 219-256): switch the active
producer. Note that `inputBuffer` is left untouched by the switch. -/
def applyTransportMode (mode : TransportMode) (queuesOk : Bool)
    (st : MainTransportState) : Bool × MainTransportState × List MainAction :=
  let previous := st.mode
  let result :=
    match mode with
    | .Websocket =>
        if !queuesOk then none
        else
          let (st1, acts1) :=
            if st.serialActive then
              ({ st with mode := TransportMode.Websocket, serialActive := false },
               [MainAction.serialEnd])
            else ({ st with mode := TransportMode.Websocket }, [])
          some (st1, acts1)
    | .Uart =>
        let (st1, acts1) :=
          if !st.serialActive then
            ({ st with serialActive := true }, [MainAction.serialBegin st.uartBaudRate])
          else (st, [])
        let st2 := { st1 with mode := TransportMode.Uart, commandQueue := [] }
        some (st2, acts1 ++ [MainAction.closeWebsocket, MainAction.resetQueues])
  match result with
  | none => (false, st, [])
  | some (st1, acts1) =>
      if previous ≠ mode then
        (true, st1, acts1 ++ [MainAction.sendEvent "transport_mode"
          (match mode with | .Websocket => "websocket" | .Uart => "uart")])
      else (true, st1, acts1)

/-- One character of the UART branch of `transportPumpTask` in `main.cpp`:
`flushInputBuffer` hands a complete non-empty line to `processCommand`
(collected here as a delivery), an overflowing buffer is reported and
cleared. -/
def mainUartPumpStep (buffer : List Nat) (c : Nat) :
    List Nat × List (List Nat) × List UartEmit :=
  if c = 13 then (buffer, [], [])
  else if c = 10 then
    if buffer.length > 0 then ([], [buffer], []) else ([], [], [])
  else if buffer.length ≥ 512 then ([], [], [.inputTooLong])
  else (buffer ++ [c], [], [])

/-- The UART read loop of `transportPumpTask` in `main.cpp`, over the
available serial bytes; returns the new buffer, the lines delivered to
`processCommand` and the emitted status errors. -/
def mainUartPump (buffer : List Nat) :
    List Nat → List Nat × List (List Nat) × List UartEmit
  | [] => (buffer, [], [])
  | c :: rest =>
      let (b1, d1, e1) := mainUartPumpStep buffer c
      let (b2, d2, e2) := mainUartPump b1 rest
      (b2, d1 ++ d2, e1 ++ e2)

/-- `transportPumpTask` (UART branch) of `main.cpp`: runs only when the mode
is `Uart` and the serial port is active. -/
def mainTransportPumpUart (st : MainTransportState) (input : List Nat) :
    MainTransportState × List (List Nat) × List UartEmit :=
  if st.mode = .Uart && st.serialActive then
    let (b, d, e) := mainUartPump st.inputBuffer input
    ({ st with inputBuffer := b }, d, e)
  else (st, [], [])

/-! ### Station manager (`wifi_manager.cpp`)

`schedule_connect_internal` (credential scheduling) and
`connect_to_station_internal` (the bounded blocking connect attempt). The
`WiFi.begin` polling loop is abstracted to its outcome `connects` (connected
within the 20 s timeout or not); mode-set primitives are assumed to
succeed. -/

/-- `WIFI_MAX_SSID_LENGTH` from `wifi_manager.cpp`. -/
def WIFI_MAX_SSID_LENGTH : Nat := 32

/-- `WIFI_MAX_PASSWORD_LENGTH` from `wifi_manager.cpp`. -/
def WIFI_MAX_PASSWORD_LENGTH : Nat := 64

/-- `wifi_mode_t` values used by `wifi_manager.cpp`. -/
inductive WifiMode
  | Null
  | Sta
  | Ap
  | ApSta
  deriving DecidableEq, Repr

/-- `WifiConnectRequest` from `wifi_manager.cpp`. -/
structure WifiConnectRequest where
  keep_ap_active : Bool
  ssid : String
  password : String
  deriving DecidableEq, Repr

/-- Runtime conditions consulted by `schedule_connect_internal`: the
`wifi_connect_busy_` flag, whether the request queue and worker task exist
(or could be created), how many requests are already queued, and whether
`xQueueSend` succeeds. -/
structure ScheduleEnv where
  busy : Bool := false
  queueCreated : Bool := true
  taskCreated : Bool := true
  pendingRequests : Nat := 0
  sendOk : Bool := true
  deriving Repr

/-- Truncation to at most `maxLength` characters
(`String::substring(0, maxLength)` in `schedule_connect_internal`). -/
def limitLength (value : String) (maxLength : Nat) : String :=
  if value.length > maxLength then ⟨value.toList.take maxLength⟩ else value

/-- `schedule_connect_internal` from `wifi_manager.cpp` (lines 730-769):
refuse an empty SSID, a busy worker, a missing queue/task, or an already
queued request; otherwise enqueue the (length-limited) request. Returns the
C++ boolean result and the request that was enqueued, if any.
`schedule_connect` (lines 848-851) forwards to this directly. -/
def schedule_connect_internal (ssid password : String) (keep_ap_active : Bool)
    (env : ScheduleEnv) : Bool × Option WifiConnectRequest :=
  if ssid == "" then (false, none)
  else if env.busy then (false, none)
  else if !(env.queueCreated && env.taskCreated) then (false, none)
  else if env.pendingRequests > 0 then (false, none)
  else
    let request : WifiConnectRequest :=
      { keep_ap_active := keep_ap_active
        ssid := limitLength ssid WIFI_MAX_SSID_LENGTH
        password := limitLength password WIFI_MAX_PASSWORD_LENGTH }
    if env.sendOk then (true, some request) else (false, none)

/-- `WifiManagerState` fields from `wifi_manager.cpp` that the connect path
touches. -/
structure WmState where
  configuration_mode : Bool := false
  dns_active : Bool := false
  sta_connect_in_progress : Bool := false
  temporary_apsta_mode : Bool := false
  ap_shutdown_pending : Bool := false
  ap_shutdown_deadline : Nat := 0
  current_mode : WifiMode := .Null
  target_mode : WifiMode := .Ap
  mode_before_temporary : WifiMode := .Null
  deriving DecidableEq, Repr

/-- Externally visible actions of the station manager. -/
inductive WmAction
  | wifiBegin (ssid password : String)
  | wifiDisconnect
  | espWifiDisconnect
  | softApDisconnect
  | softApStart (ssid : String)
  | stopCaptivePortal
  | startCaptivePortal
  | saveCredentials (ssid password : String)
  | publishState (state ssid message : String)
  | sendEvent (name detail : String)
  | sendStatusError (message : String)
  deriving DecidableEq, Repr

/-- `WIFI_AP_SHUTDOWN_DELAY_MS` from `wifi_manager.cpp`. -/
def WIFI_AP_SHUTDOWN_DELAY_MS : Nat := 3000

/-- `CONFIG_AP_SSID` from `wifi_manager.cpp`. -/
def CONFIG_AP_SSID : String := "uhid-setup"

/-- `ensure_sta_only_mode` from `wifi_manager.cpp` (mode set assumed to
succeed). -/
def ensure_sta_only_mode (st : WmState) : WmState :=
  { st with temporary_apsta_mode := false, target_mode := .Sta,
            current_mode := .Sta }

/-- `ensure_ap_only_mode` from `wifi_manager.cpp`. -/
def ensure_ap_only_mode (st : WmState) : WmState :=
  { st with temporary_apsta_mode := false, target_mode := .Ap,
            current_mode := .Ap }

/-- `shutdown_access_point` from `wifi_manager.cpp`. -/
def shutdown_access_point (st : WmState) : WmState × List WmAction :=
  let acts : List WmAction :=
    (if st.dns_active then [.stopCaptivePortal] else []) ++ [.softApDisconnect]
  let st1 := ensure_sta_only_mode st
  ({ st1 with dns_active := false, configuration_mode := false }, acts)

/-- `request_ap_sta_mode` from `wifi_manager.cpp`. -/
def request_ap_sta_mode (temporary : Bool) (st : WmState) : WmState :=
  let st1 :=
    if temporary then
      { st with mode_before_temporary := st.current_mode,
                target_mode := if st.current_mode = .Sta then .Sta else .Ap }
    else st
  { st1 with temporary_apsta_mode := temporary, current_mode := .ApSta }

/-- `schedule_sta_only_transition` from `wifi_manager.cpp`: arm the delayed
AP shutdown only from a non-temporary AP+STA mode. -/
def schedule_sta_only_transition (now : Nat) (st : WmState) : WmState :=
  if st.current_mode ≠ .ApSta || st.temporary_apsta_mode then st
  else { st with ap_shutdown_pending := true,
                 ap_shutdown_deadline := now + WIFI_AP_SHUTDOWN_DELAY_MS,
                 target_mode := .Sta }

/-- `start_ap` from `wifi_manager.cpp` (soft-AP bring-up assumed to
succeed): AP-only mode, captive portal up, configuration mode on. -/
def wm_start_ap (st : WmState) : WmState × List WmAction :=
  let st1 := (ensure_ap_only_mode { st with ap_shutdown_pending := false })
  ({ st1 with dns_active := true, configuration_mode := true },
   [.softApStart CONFIG_AP_SSID, .startCaptivePortal,
    .publishState "ap" CONFIG_AP_SSID ""])

/-- `connect_to_station_internal` from `wifi_manager.cpp` (lines 530-662).
`startOk` is the `ensure_wifi_started` outcome, `connects` the outcome of
the 20 s polling loop, `saveOk` the `invoke_save_credentials` outcome.
Returns the C++ boolean result, the new state and the action trace. Note
that the function receives no record of any previous association: on
failure it either restores the access point or plain-disconnects. -/
def connect_to_station_internal (ssid password : String) (keep_ap_active : Bool)
    (startOk connects saveOk : Bool) (now : Nat) (st : WmState) :
    Bool × WmState × List WmAction :=
  if ssid == "" then (false, st, [])
  else
    let acts0 : List WmAction := [.publishState "connecting" ssid ""]
    let st1 := { st with ap_shutdown_pending := false }
    let (st2, acts1) :=
      if keep_ap_active then (request_ap_sta_mode false st1, ([] : List WmAction))
      else shutdown_access_point st1
    if !startOk then
      if keep_ap_active then
        let (st3, acts2) := wm_start_ap st2
        (false, st3,
         acts0 ++ acts1 ++ [.publishState "failed" ssid "Failed to start WiFi"]
           ++ acts2)
      else
        (false, st2,
         acts0 ++ acts1 ++ [.wifiDisconnect,
           .publishState "failed" ssid "Failed to start WiFi"])
    else
      let st3 := { st2 with sta_connect_in_progress := true }
      let actsBegin : List WmAction := [.wifiBegin ssid password]
      let st4 := { st3 with sta_connect_in_progress := false,
                            configuration_mode :=
                              if connects && !keep_ap_active then false
                              else st3.configuration_mode }
      if !connects then
        if keep_ap_active then
          let (st5, acts2) := wm_start_ap st4
          (false, st5,
           acts0 ++ acts1 ++ actsBegin ++ [.espWifiDisconnect] ++ acts2
             ++ [.publishState "failed" ssid "Connection timed out"])
        else
          (false, st4,
           acts0 ++ acts1 ++ actsBegin ++ [.wifiDisconnect,
             .publishState "failed" ssid "Connection timed out"])
      else
        let actsSave : List WmAction := [.saveCredentials ssid password]
        if !saveOk then
          let st5 :=
            if keep_ap_active then
              { st4 with ap_shutdown_pending := false,
                         target_mode := .ApSta, current_mode := .ApSta }
            else st4
          (false, st5,
           acts0 ++ acts1 ++ actsBegin ++ actsSave
             ++ [.sendStatusError "Failed to save WiFi credentials",
                 .publishState "failed" ssid "Failed to save WiFi credentials"])
        else
          let (st5, actsPortal) :=
            if !keep_ap_active then
              (({ st4 with dns_active := false } : WmState),
               if st4.dns_active then [WmAction.stopCaptivePortal] else [])
            else (st4, [])
          let st6 :=
            if !keep_ap_active then schedule_sta_only_transition now st5 else st5
          (true, st6,
           acts0 ++ acts1 ++ actsBegin ++ actsSave ++ actsPortal
             ++ [.sendEvent "wifi_sta_connected" ssid,
                 .publishState "connected" ssid ""])

/-! ### BLE session identity (`ble_command_processor.cpp`)

`applyIdentityFromConfig` over an explicit state carrying the stack-active
flag, the vendor stack's current name/manufacturer fields, the captured
default manufacturer and the connection edge detector. `generateApSsid` is
chip-id derived; it enters the model as the `apSsid` parameter. A performed
stop/deinit/restart sequence increments `restarts`. -/

/-- State of the BLE session manager. -/
structure BleIdentityState where
  stackActive : Bool := false
  kbDeviceName : String := ""
  kbDeviceManufacturer : String := ""
  defaultManufacturerCaptured : Bool := false
  defaultBleManufacturer : String := ""
  lastBleConnectionState : Bool := false
  restarts : Nat := 0
  deriving DecidableEq, Repr

/-- `getEffectiveBleDeviceName` from `device_config.cpp`: the configured
override when present and non-empty, else the generated AP SSID. -/
def getEffectiveBleDeviceName (config : DeviceConfig) (apSsid : String) : String :=
  if config.hasBleDeviceName && config.bleDeviceName.length > 0 then
    config.bleDeviceName
  else apSsid

/-- `applyIdentityFromConfig` from `ble_command_processor.cpp` (lines
1108-1176). `connBefore`/`connAfter` are the `Keyboard.isConnected()`
readings before the teardown and after the restart. Returns the new state
and the emitted connection events. -/
def applyIdentityFromConfig (config : DeviceConfig) (apSsid : String)
    (connBefore connAfter : Bool) (st : BleIdentityState) :
    BleIdentityState × List String :=
  let desiredName := getEffectiveBleDeviceName config apSsid
  let desiredManufacturer :=
    if config.hasBleManufacturerName && config.bleManufacturerName.length > 0 then
      config.bleManufacturerName
    else if st.defaultManufacturerCaptured then st.defaultBleManufacturer
    else st.kbDeviceManufacturer
  if !st.stackActive then
    ({ st with kbDeviceName := desiredName,
               kbDeviceManufacturer := desiredManufacturer }, [])
  else
    let nameChanged := st.kbDeviceName ≠ desiredName
    let manufacturerChanged := st.kbDeviceManufacturer ≠ desiredManufacturer
    if !nameChanged && !manufacturerChanged then (st, [])
    else
      let wasConnected := connBefore
      let st1 := { st with kbDeviceName := desiredName,
                           kbDeviceManufacturer := desiredManufacturer,
                           restarts := st.restarts + 1 }
      let (st2, events1) :=
        if wasConnected then
          ({ st1 with lastBleConnectionState := false }, ["ble_disconnected"])
        else (st1, [])
      let connected := connAfter
      if connected ≠ st2.lastBleConnectionState then
        ({ st2 with lastBleConnectionState := connected },
         events1 ++ (if connected then ["ble_connected"] else []))
      else
        ({ st2 with lastBleConnectionState := connected }, events1)

/-- `BleCommandProcessor::begin` from `ble_command_processor.cpp`: capture
the default manufacturer once, apply the identity, start the stacks. -/
def bleProcessorBegin (config : DeviceConfig) (apSsid : String)
    (connAfter : Bool) (st : BleIdentityState) : BleIdentityState :=
  let st1 :=
    if !st.defaultManufacturerCaptured then
      { st with defaultBleManufacturer := st.kbDeviceManufacturer,
                defaultManufacturerCaptured := true }
    else st
  let (st2, _) := applyIdentityFromConfig config apSsid false false st1
  { st2 with stackActive := true, lastBleConnectionState := connAfter }

/-! ### Command processor (`ble_command_processor.cpp`)

`processCommand` and its keyboard/mouse/consumer handlers. All status
output goes through `broadcastJson`; the model collects those emissions as
`CmdResponse` values. HID side effects (key presses, mouse reports) are not
observable to the claims and are not tracked. The key-code constants come
from the external BLE keyboard library. -/

/-- One broadcast status message. -/
inductive CmdResponse
  | ok
  | error (message : String)
  deriving DecidableEq, Repr

/-- HID key-code constants of the BLE keyboard library referenced by
`KEY_NAME_MAP` (external collaborator; values as published by the library
headers). -/
def KEY_RETURN : Nat := 176
def KEY_ESC : Nat := 177
def KEY_BACKSPACE : Nat := 178
def KEY_TAB : Nat := 179
def KEY_INSERT : Nat := 209
def KEY_HOME : Nat := 210
def KEY_PAGE_UP : Nat := 211
def KEY_DELETE : Nat := 212
def KEY_END : Nat := 213
def KEY_PAGE_DOWN : Nat := 214
def KEY_RIGHT_ARROW : Nat := 215
def KEY_LEFT_ARROW : Nat := 216
def KEY_DOWN_ARROW : Nat := 217
def KEY_UP_ARROW : Nat := 218
def KEY_CAPS_LOCK : Nat := 193
def KEY_LEFT_CTRL : Nat := 128
def KEY_LEFT_SHIFT : Nat := 129
def KEY_LEFT_ALT : Nat := 130
def KEY_LEFT_GUI : Nat := 131
def KEY_RIGHT_CTRL : Nat := 132
def KEY_RIGHT_SHIFT : Nat := 133
def KEY_RIGHT_ALT : Nat := 134
def KEY_RIGHT_GUI : Nat := 135
def KEY_F1 : Nat := 194

/-- `KEY_NAME_MAP` from `ble_command_processor.cpp`. -/
def KEY_NAME_MAP : List (String × Nat) :=
  [("KEY_RETURN", KEY_RETURN), ("RETURN", KEY_RETURN), ("ENTER", KEY_RETURN),
   ("KEY_ESC", KEY_ESC), ("ESC", KEY_ESC), ("ESCAPE", KEY_ESC),
   ("KEY_BACKSPACE", KEY_BACKSPACE), ("BACKSPACE", KEY_BACKSPACE),
   ("KEY_TAB", KEY_TAB), ("TAB", KEY_TAB),
   ("KEY_DELETE", KEY_DELETE), ("DELETE", KEY_DELETE), ("DEL", KEY_DELETE),
   ("KEY_INSERT", KEY_INSERT), ("INSERT", KEY_INSERT), ("INS", KEY_INSERT),
   ("KEY_PAGE_UP", KEY_PAGE_UP), ("PAGE_UP", KEY_PAGE_UP), ("PGUP", KEY_PAGE_UP),
   ("KEY_PAGE_DOWN", KEY_PAGE_DOWN), ("PAGE_DOWN", KEY_PAGE_DOWN),
   ("PGDN", KEY_PAGE_DOWN),
   ("KEY_HOME", KEY_HOME), ("HOME", KEY_HOME),
   ("KEY_END", KEY_END), ("END", KEY_END),
   ("KEY_RIGHT_ARROW", KEY_RIGHT_ARROW), ("RIGHT", KEY_RIGHT_ARROW),
   ("KEY_LEFT_ARROW", KEY_LEFT_ARROW), ("LEFT", KEY_LEFT_ARROW),
   ("KEY_UP_ARROW", KEY_UP_ARROW), ("UP", KEY_UP_ARROW),
   ("KEY_DOWN_ARROW", KEY_DOWN_ARROW), ("DOWN", KEY_DOWN_ARROW),
   ("KEY_CAPS_LOCK", KEY_CAPS_LOCK), ("CAPS_LOCK", KEY_CAPS_LOCK),
   ("CAPSLOCK", KEY_CAPS_LOCK),
   ("KEY_LEFT_CTRL", KEY_LEFT_CTRL), ("LEFT_CTRL", KEY_LEFT_CTRL),
   ("CTRL", KEY_LEFT_CTRL), ("CONTROL", KEY_LEFT_CTRL),
   ("KEY_RIGHT_CTRL", KEY_RIGHT_CTRL), ("RIGHT_CTRL", KEY_RIGHT_CTRL),
   ("KEY_LEFT_SHIFT", KEY_LEFT_SHIFT), ("LEFT_SHIFT", KEY_LEFT_SHIFT),
   ("SHIFT", KEY_LEFT_SHIFT),
   ("KEY_RIGHT_SHIFT", KEY_RIGHT_SHIFT), ("RIGHT_SHIFT", KEY_RIGHT_SHIFT),
   ("KEY_LEFT_ALT", KEY_LEFT_ALT), ("LEFT_ALT", KEY_LEFT_ALT),
   ("ALT", KEY_LEFT_ALT),
   ("KEY_RIGHT_ALT", KEY_RIGHT_ALT), ("RIGHT_ALT", KEY_RIGHT_ALT),
   ("ALTGR", KEY_RIGHT_ALT),
   ("KEY_LEFT_GUI", KEY_LEFT_GUI), ("LEFT_GUI", KEY_LEFT_GUI),
   ("LGUI", KEY_LEFT_GUI), ("GUI", KEY_LEFT_GUI), ("WIN", KEY_LEFT_GUI),
   ("WINDOWS", KEY_LEFT_GUI), ("COMMAND", KEY_LEFT_GUI),
   ("KEY_RIGHT_GUI", KEY_RIGHT_GUI), ("RIGHT_GUI", KEY_RIGHT_GUI),
   ("RGUI", KEY_RIGHT_GUI),
   ("SPACE", 32), ("SPACEBAR", 32)]

/-- `lookupKeyCode` from `ble_command_processor.cpp`. -/
def lookupKeyCode (token : String) : Option Nat :=
  (KEY_NAME_MAP.find? (fun entry => entry.1 == token)).map (·.2)

/-- `MOUSE_BUTTON_MAP` from `ble_command_processor.cpp` (library masks:
left 1, right 2, middle 4, back 8, forward 16). -/
def MOUSE_BUTTON_MAP : List (String × Nat) :=
  [("LEFT", 1), ("MOUSE_LEFT", 1), ("BUTTON1", 1),
   ("RIGHT", 2), ("MOUSE_RIGHT", 2), ("BUTTON2", 2),
   ("MIDDLE", 4), ("SCROLL", 4), ("WHEEL", 4), ("BUTTON3", 4),
   ("BACK", 8), ("BUTTON4", 8),
   ("FORWARD", 16), ("BUTTON5", 16)]

/-- `addButtonByName` from `ble_command_processor.cpp`: OR the named
button's mask in, or fail. -/
def addButtonByName (token : String) (mask : Nat) : Option Nat :=
  (MOUSE_BUTTON_MAP.find? (fun entry => entry.1 == token)).map
    (fun entry => mask ||| entry.2)

/-- `CONSUMER_KEY_MAP` from `ble_command_processor.cpp`; the media key
report a name resolves to is identified by its canonical library name. -/
def CONSUMER_KEY_MAP : List (String × String) :=
  [("KEY_MEDIA_PLAY_PAUSE", "PLAY_PAUSE"), ("MEDIA_PLAY_PAUSE", "PLAY_PAUSE"),
   ("PLAY_PAUSE", "PLAY_PAUSE"),
   ("KEY_MEDIA_STOP", "STOP"), ("MEDIA_STOP", "STOP"),
   ("KEY_MEDIA_NEXT_TRACK", "NEXT_TRACK"), ("MEDIA_NEXT", "NEXT_TRACK"),
   ("NEXT_TRACK", "NEXT_TRACK"),
   ("KEY_MEDIA_PREVIOUS_TRACK", "PREVIOUS_TRACK"),
   ("MEDIA_PREVIOUS", "PREVIOUS_TRACK"), ("MEDIA_PREV", "PREVIOUS_TRACK"),
   ("PREVIOUS_TRACK", "PREVIOUS_TRACK"),
   ("KEY_MEDIA_VOLUME_UP", "VOLUME_UP"), ("VOLUME_UP", "VOLUME_UP"),
   ("KEY_MEDIA_VOLUME_DOWN", "VOLUME_DOWN"), ("VOLUME_DOWN", "VOLUME_DOWN"),
   ("KEY_MEDIA_MUTE", "MUTE"), ("MUTE", "MUTE"),
   ("KEY_MEDIA_WWW_HOME", "WWW_HOME"), ("WWW_HOME", "WWW_HOME"),
   ("KEY_MEDIA_EMAIL_READER", "EMAIL_READER"), ("EMAIL", "EMAIL_READER"),
   ("KEY_MEDIA_CALCULATOR", "CALCULATOR"), ("CALCULATOR", "CALCULATOR"),
   ("KEY_MEDIA_WWW_SEARCH", "WWW_SEARCH"), ("WWW_SEARCH", "WWW_SEARCH"),
   ("KEY_MEDIA_WWW_STOP", "WWW_STOP"), ("WWW_STOP", "WWW_STOP"),
   ("KEY_MEDIA_WWW_BACK", "WWW_BACK"), ("WWW_BACK", "WWW_BACK"),
   ("KEY_MEDIA_WWW_BOOKMARKS", "WWW_BOOKMARKS"),
   ("WWW_BOOKMARKS", "WWW_BOOKMARKS")]

/-- `lookupConsumerKey` from `ble_command_processor.cpp`. -/
def lookupConsumerKey (token : String) : Option String :=
  (CONSUMER_KEY_MAP.find? (fun entry => entry.1 == token)).map (·.2)

/-- Value of a hexadecimal digit. -/
def hexDigitVal (c : Char) : Option Nat :=
  if c.isDigit then some (c.toNat - 48)
  else if 'a' ≤ c && c ≤ 'f' then some (c.toNat - 87)
  else if 'A' ≤ c && c ≤ 'F' then some (c.toNat - 55)
  else none

/-- Leading-hex-digits value, as `strtol(_, nullptr, 16)` computes after the
`0x` marker (stops at the first non-digit; no digits give zero). -/
def hexLeadingValue : List Char → Nat → Nat
  | [], acc => acc
  | c :: rest, acc =>
      match hexDigitVal c with
      | some v => hexLeadingValue rest (acc * 16 + v)
      | none => acc

/-- Leading-decimal-digits value. -/
def decLeadingValue : List Char → Nat → Nat
  | [], acc => acc
  | c :: rest, acc =>
      if c.isDigit then decLeadingValue rest (acc * 10 + (c.toNat - 48))
      else acc

/-- Arduino `String::toInt`: optional sign followed by leading digits. -/
def arduinoToInt (s : String) : Int :=
  match s.toList with
  | '-' :: rest => -(decLeadingValue rest 0 : Int)
  | '+' :: rest => (decLeadingValue rest 0 : Int)
  | cs => (decLeadingValue cs 0 : Int)

/-- `parseKeyCode` from `ble_command_processor.cpp` (lines 253-330): an
in-range integer, a single character, a `0x` hex literal, a named key
(optionally with the `KEY_` marker stripped), or an F-key. Emits nothing. -/
def parseKeyCode (value : Json) : Option Nat :=
  if value.isInt then
    let raw := value.asInt
    if raw < 0 || raw > 255 then none else some raw.toNat
  else if value.isStr then
    let token := trimAscii (value.asStrOr "")
    if token.length = 0 then none
    else if token.length = 1 then some ((token.toList.headD 'a').toNat % 256)
    else
      let hexStep : Option Nat :=
        if startsWithAscii token "0x" || startsWithAscii token "0X" then
          let parsed := hexLeadingValue (token.toList.drop 2) 0
          if parsed ≤ 255 then some parsed else none
        else none
      match hexStep with
      | some code => some code
      | none =>
        let upper := upperAscii token
        match lookupKeyCode upper with
        | some code => some code
        | none =>
          let strippedStep : Option Nat :=
            if startsWithAscii upper "KEY_" then
              lookupKeyCode (dropAscii upper 4)
            else none
          match strippedStep with
          | some code => some code
          | none =>
            let fStep : Option Nat :=
              if startsWithAscii upper "F" then
                let fn := arduinoToInt (dropAscii upper 1)
                if 1 ≤ fn && fn ≤ 24 then some (KEY_F1 + (fn.toNat - 1))
                else none
              else none
            match fStep with
            | some code => some code
            | none =>
              if startsWithAscii upper "KEY_F" then
                let fn := arduinoToInt (dropAscii upper 5)
                if 1 ≤ fn && fn ≤ 24 then some (KEY_F1 + (fn.toNat - 1))
                else none
              else none
  else none

/-- `reportInvalidKey` from `ble_command_processor.cpp`. -/
def reportInvalidKey (value : Json) : CmdResponse :=
  if value.isStr then .error ("Unknown key: " ++ value.asStrOr "")
  else if value.isInt then .error ("Invalid key code: " ++ toString value.asInt)
  else .error "Invalid key entry"

/-- `MAX_KEY_COMBO` from `ble_command_processor.cpp`. -/
def MAX_KEY_COMBO : Nat := 8

/-- The array loop of `collectKeyCodes`: `acc` is the codes collected so
far. On success nothing is emitted; an empty array fails silently. -/
def collectKeyCodesArr (maxCount : Nat) :
    List Json → List Nat → List CmdResponse × Option (List Nat)
  | [], acc => ([], if acc.length > 0 then some acc else none)
  | key :: rest, acc =>
      if acc.length ≥ maxCount then ([.error "Too many keys in combo"], none)
      else
        match parseKeyCode key with
        | none => ([reportInvalidKey key], none)
        | some code => collectKeyCodesArr maxCount rest (acc ++ [code])

/-- `collectKeyCodes` from `ble_command_processor.cpp` (lines 332-367). -/
def collectKeyCodes (source : Json) (maxCount : Nat) :
    List CmdResponse × Option (List Nat) :=
  match source with
  | .arr items => collectKeyCodesArr maxCount items []
  | .null => ([], none)
  | other =>
      match parseKeyCode other with
      | none => ([reportInvalidKey other], none)
      | some code => ([], some [code])

/-- `extractKeyCodes` from `ble_command_processor.cpp` (lines 369-391):
`keys`, then `key`, then `code`, else a missing-key error. -/
def extractKeyCodes (command : Json) :
    List CmdResponse × Option (List Nat) :=
  if !(command.member "keys").isNull then
    collectKeyCodes (command.member "keys") MAX_KEY_COMBO
  else if !(command.member "key").isNull then
    collectKeyCodes (command.member "key") MAX_KEY_COMBO
  else if !(command.member "code").isNull then
    collectKeyCodes (command.member "code") MAX_KEY_COMBO
  else ([.error "keyboard action requires key(s) or code"], none)

/-- `reportInvalidButton` from `ble_command_processor.cpp`. -/
def reportInvalidButton (value : Json) : CmdResponse :=
  if value.isStr then .error ("Unknown mouse button: " ++ value.asStrOr "")
  else if value.isInt then
    .error ("Invalid mouse button mask: " ++ toString value.asInt)
  else .error "Invalid mouse button entry"

/-- `static_cast<uint8_t>` of a C `int`. -/
def toUInt8 (n : Int) : Nat := (n % 256).toNat

/-- The array loop of `parseButtonMask`. A final zero mask fails silently. -/
def parseButtonMaskArr : List Json → Nat → List CmdResponse × Option Nat
  | [], mask => ([], if mask ≠ 0 then some mask else none)
  | button :: rest, mask =>
      if button.isStr then
        let token := upperAscii (trimAscii (button.asStrOr ""))
        match addButtonByName token mask with
        | some mask' => parseButtonMaskArr rest mask'
        | none => ([reportInvalidButton button], none)
      else if button.isInt then
        parseButtonMaskArr rest (mask ||| toUInt8 button.asInt)
      else ([reportInvalidButton button], none)

/-- `parseButtonMask` from `ble_command_processor.cpp` (lines 426-473). The
single-name and integer forms fail without emitting anything. -/
def parseButtonMask (value : Json) : List CmdResponse × Option Nat :=
  match value with
  | .arr items => parseButtonMaskArr items 0
  | .str s =>
      let token := upperAscii (trimAscii s)
      match addButtonByName token 0 with
      | some mask => ([], some mask)
      | none => ([], none)
  | .num n =>
      let mask := toUInt8 n
      ([], if mask ≠ 0 then some mask else none)
  | .bool _ => ([], none)
  | _ => ([], none)

/-- `clampRepeat` from `ble_command_processor.cpp`. -/
def clampRepeat (value : Json) : Nat :=
  if value.isNull then 1
  else
    let parsed := value.asInt
    if parsed < 1 then 1
    else if parsed > 100 then 100
    else parsed.toNat

/-- `extractRelative` from `ble_command_processor.cpp`. -/
def extractRelative (object : Json) (primaryKey secondaryKey : String) : Int :=
  if !(object.member primaryKey).isNull then (object.member primaryKey).asInt
  else if !(object.member secondaryKey).isNull then
    (object.member secondaryKey).asInt
  else 0

/-- `reportInvalidConsumerKey` from `ble_command_processor.cpp`. -/
def reportInvalidConsumerKey (value : Json) : CmdResponse :=
  if value.isStr then .error ("Unknown consumer key: " ++ value.asStrOr "")
  else .error "Invalid consumer key entry"

/-- `MAX_CONSUMER_KEYS` from `ble_command_processor.cpp`. -/
def MAX_CONSUMER_KEYS : Nat := 8

/-- The array loop of `collectConsumerReports`. -/
def collectConsumerReportsArr (maxCount : Nat) :
    List Json → List String → List CmdResponse × Option (List String)
  | [], acc => ([], if acc.length > 0 then some acc else none)
  | entry :: rest, acc =>
      if !entry.isStr then ([reportInvalidConsumerKey entry], none)
      else if acc.length ≥ maxCount then
        ([.error "Too many consumer keys"], none)
      else
        let token := upperAscii (trimAscii (entry.asStrOr ""))
        match lookupConsumerKey token with
        | none => ([reportInvalidConsumerKey entry], none)
        | some report => collectConsumerReportsArr maxCount rest (acc ++ [report])

/-- `collectConsumerReports` from `ble_command_processor.cpp`
(lines 547-594). -/
def collectConsumerReports (source : Json) (maxCount : Nat) :
    List CmdResponse × Option (List String) :=
  match source with
  | .arr items => collectConsumerReportsArr maxCount items []
  | .str s =>
      let token := upperAscii (trimAscii s)
      match lookupConsumerKey token with
      | some report => ([], some [report])
      | none => ([reportInvalidConsumerKey (.str s)], none)
  | other => ([reportInvalidConsumerKey other], none)

/-- `handleKeyboard` from `ble_command_processor.cpp` (lines 596-779),
collecting the emitted status messages. -/
def handleKeyboard (connected : Bool) (command : Json) : List CmdResponse :=
  if !connected then [.error "BLE keyboard not connected"]
  else
    let action := (command.member "action").asStrOr "press"
    if action = "write" || action = "print" || action = "println" then
      let text := (command.member "text").asStr
      let addNewLine :=
        action = "println" || (command.member "newline").asBool
      if text.isSome then [.ok]
      else if addNewLine then [.ok]
      else
        match extractKeyCodes command with
        | (emits, none) => emits
        | (emits, some _) => emits ++ [.ok]
    else if action = "releaseAll" || action = "release_all" then [.ok]
    else
      match extractKeyCodes command with
      | (emits, none) => emits
      | (emits, some _) =>
          if action = "press" then emits ++ [.ok]
          else if action = "release" then emits ++ [.ok]
          else if action = "tap" || action = "click" then emits ++ [.ok]
          else emits ++ [.error ("Unknown keyboard action: " ++ action)]

/-- `handleMouse` from `ble_command_processor.cpp` (lines 781-918). -/
def handleMouse (connected : Bool) (command : Json) : List CmdResponse :=
  if !connected then [.error "BLE mouse not connected"]
  else
    let action := (command.member "action").asStrOr "move"
    let x := extractRelative command "x" "dx"
    let y := extractRelative command "y" "dy"
    let wheel := extractRelative command "wheel" "scroll"
    let hWheel := extractRelative command "hWheel" "h_scroll"
    let hasMovement := x ≠ 0 || y ≠ 0 || wheel ≠ 0 || hWheel ≠ 0
    let buttonsStep : Except (List CmdResponse) (Nat × Bool) :=
      if !(command.member "buttons").isNull then
        match parseButtonMask (command.member "buttons") with
        | (emits, none) => .error emits
        | (emits, some mask) => .ok (mask, true)
      else if !(command.member "button").isNull then
        match parseButtonMask (command.member "button") with
        | (emits, none) => .error emits
        | (emits, some mask) => .ok (mask, true)
      else .ok (0, false)
    match buttonsStep with
    | .error emits => emits
    | .ok (mask, hasButtons) =>
        if action = "click" then [.ok]
        else if action = "scroll" then
          if !hasMovement then [.error "mouse scroll requires movement"]
          else [.ok]
        else if action = "move" then
          if !hasMovement then [.error "mouse move requires movement"]
          else [.ok]
        else if action = "press" then
          if !hasButtons then [.error "mouse press requires button(s)"]
          else [.ok]
        else if action = "release" then
          if !hasButtons then [.error "mouse release requires button(s)"]
          else [.ok]
        else if action = "releaseAll" || action = "release_all" then [.ok]
        else [.error ("Unknown mouse action: " ++ action)]

/-- `handleConsumer` from `ble_command_processor.cpp` (lines 920-1002). -/
def handleConsumer (connected : Bool) (command : Json) : List CmdResponse :=
  if !connected then [.error "BLE keyboard not connected"]
  else
    let collectStep : Except (List CmdResponse) (List String) :=
      if !(command.member "keys").isNull then
        match collectConsumerReports (command.member "keys") MAX_CONSUMER_KEYS with
        | (emits, none) => .error emits
        | (emits, some reports) => .ok reports
      else if !(command.member "key").isNull then
        match collectConsumerReports (command.member "key") MAX_CONSUMER_KEYS with
        | (emits, none) => .error emits
        | (emits, some reports) => .ok reports
      else if !(command.member "code").isNull then
        match collectConsumerReports (command.member "code") MAX_CONSUMER_KEYS with
        | (emits, none) => .error emits
        | (emits, some reports) => .ok reports
      else .error [.error "consumer action requires key"]
    match collectStep with
    | .error emits => emits
    | .ok reports =>
        if reports.length = 0 then [.error "consumer action requires key"]
        else [.ok]

/-- `JSON_DOC_CAPACITY` from `ble_command_processor.cpp`. -/
def JSON_DOC_CAPACITY : Nat := 512

/-- `processCommand` from `ble_command_processor.cpp` (lines 1004-1057).
`payloadLength` is the raw payload length, `parsed` the outcome of
`deserializeJson` (an external primitive), `parseError` its error text. -/
def processCommand (connected : Bool) (payloadLength : Nat)
    (parsed : Option Json) (parseError : String) : List CmdResponse :=
  if payloadLength = 0 then []
  else if payloadLength > JSON_DOC_CAPACITY then
    [.error "JSON payload too large"]
  else
    match parsed with
    | none => [.error ("JSON parse error: " ++ parseError)]
    | some doc =>
        let device :=
          match (doc.member "device").asStr with
          | some d => some d
          | none => (doc.member "type").asStr
        match device with
        | none => [.error "Command missing device/type field"]
        | some d =>
            if lowerAscii d = "keyboard" then handleKeyboard connected doc
            else if lowerAscii d = "mouse" then handleMouse connected doc
            else if lowerAscii d = "consumer" || lowerAscii d = "media" then
              handleConsumer connected doc
            else [.error ("Unknown device type: " ++ d)]

/-- Whether an action list contains a station association attempt
(`WiFi.begin`). -/
def beginsAttempt (acts : List WsAction) : Bool :=
  acts.any (fun a => match a with | .wifiBegin _ _ => true | _ => false)

/-! ## Theorems -/

theorem commandMessageOfBytes_wellFormed (bytes : List Nat)
    (h : bytes.length ≤ COMMAND_MESSAGE_MAX_LENGTH) :
    (commandMessageOfBytes bytes).wellFormed := by
  unfold commandMessageOfBytes CommandMessage.wellFormed
  refine ⟨h, ?_, ?_⟩
  · simp only [List.length_append, List.length_replicate]
    unfold COMMAND_MESSAGE_MAX_LENGTH at h ⊢
    omega
  · obtain ⟨m, hm⟩ : ∃ m, COMMAND_MESSAGE_MAX_LENGTH + 1 - bytes.length = m + 1 := by
      unfold COMMAND_MESSAGE_MAX_LENGTH at h ⊢
      exact ⟨COMMAND_MESSAGE_MAX_LENGTH - bytes.length, by unfold COMMAND_MESSAGE_MAX_LENGTH; omega⟩
    rw [hm, List.replicate_succ, List.get?_append_right (le_refl _)]
    simp

theorem uartStep_buffer_le (qp qa : Bool) (buf : List Nat) (c : Nat)
    (h : buf.length ≤ COMMAND_MESSAGE_MAX_LENGTH) :
    (uartStep qp qa buf c).1.length ≤ COMMAND_MESSAGE_MAX_LENGTH := by
  unfold uartStep
  split_ifs with h1 h2 h3 h4 h5 <;> simp_all <;> omega

theorem uartStep_msgs_wellFormed (qp qa : Bool) (buf : List Nat) (c : Nat)
    (h : buf.length ≤ COMMAND_MESSAGE_MAX_LENGTH) :
    ∀ m ∈ (uartStep qp qa buf c).2.2, m.wellFormed := by
  intro m hm
  unfold uartStep at hm
  split_ifs at hm <;> simp_all
  subst hm
  exact commandMessageOfBytes_wellFormed buf h

theorem uartRun_buffer_le (qp qa : Bool) (input : List Nat) :
    ∀ buf : List Nat, buf.length ≤ COMMAND_MESSAGE_MAX_LENGTH →
      (uartRun qp qa buf input).1.length ≤ COMMAND_MESSAGE_MAX_LENGTH := by
  induction input with
  | nil => intro buf h; simpa [uartRun]
  | cons c rest ih =>
      intro buf h
      simp only [uartRun]
      rcases hstep : uartStep qp qa buf c with ⟨b1, e1, m1⟩
      have hb1 : b1.length ≤ COMMAND_MESSAGE_MAX_LENGTH := by
        have := uartStep_buffer_le qp qa buf c h
        rw [hstep] at this
        exact this
      rcases hrun : uartRun qp qa b1 rest with ⟨b2, e2, m2⟩
      have := ih b1 hb1
      rw [hrun] at this
      simpa [hrun]

theorem uartRun_msgs_wellFormed (qp qa : Bool) (input : List Nat) :
    ∀ buf : List Nat, buf.length ≤ COMMAND_MESSAGE_MAX_LENGTH →
      ∀ m ∈ (uartRun qp qa buf input).2.2, m.wellFormed := by
  induction input with
  | nil => intro buf h m hm; simp [uartRun] at hm
  | cons c rest ih =>
      intro buf h m hm
      simp only [uartRun] at hm
      rcases hstep : uartStep qp qa buf c with ⟨b1, e1, m1⟩
      have hb1 : b1.length ≤ COMMAND_MESSAGE_MAX_LENGTH := by
        have := uartStep_buffer_le qp qa buf c h
        rw [hstep] at this
        exact this
      rcases hrun : uartRun qp qa b1 rest with ⟨b2, e2, m2⟩
      rw [hstep, hrun] at hm
      simp at hm
      rcases hm with hm | hm
      · have := uartStep_msgs_wellFormed qp qa buf c h m
        rw [hstep] at this
        exact this hm
      · have := ih b1 hb1 m
        rw [hrun] at this
        exact this hm

/-- **C9** (confirmed). Every `CommandMessage` enqueued by either producer —
the UART line assembler (`uartTransportLoop`) or the WebSocket text-frame
handler (`handleWebsocketEvent`) — satisfies `length ≤ 512` and has a NUL
byte at `payload[length]` inside the fixed 513-byte buffer, so the consumer
can treat the payload as a C string. -/
theorem C9_queue_messages_wellformed :
    (∀ (config : DeviceConfig) (qp qa : Bool) (input : List Nat) (st : UartState),
       st.buffer.length ≤ COMMAND_MESSAGE_MAX_LENGTH →
       ∀ m ∈ (uartTransportLoop config qp qa input st).2.2, m.wellFormed) ∧
    (∀ (config : DeviceConfig) (qp qa : Bool) (payload : List Nat),
       ∀ m ∈ (handleWebsocketText config qp qa payload).2, m.wellFormed) := by
  constructor
  · intro config qp qa input st h m hm
    unfold uartTransportLoop at hm
    split_ifs at hm
    · simp at hm
    · rcases hrun : uartRun qp qa st.buffer input with ⟨b, e, msgs⟩
      rw [hrun] at hm
      simp at hm
      have := uartRun_msgs_wellFormed qp qa input st.buffer h m
      rw [hrun] at this
      exact this hm
  · intro config qp qa payload m hm
    unfold handleWebsocketText at hm
    split_ifs at hm with h1 h2 h3 h4 h5 <;> simp_all
    subst hm
    exact commandMessageOfBytes_wellFormed payload (by omega)

set_option maxRecDepth 10000 in
/-- Witness for C9: the two-byte line `HI` followed by a newline is
assembled into a well-formed message by the UART producer. -/
theorem C9_witness :
    (commandMessageOfBytes [72, 73]).wellFormed := by
  have h := C9_queue_messages_wellformed.1
    { transport := .Uart } true true [72, 73, 10] {} (by decide)
    (commandMessageOfBytes [72, 73]) (by decide)
  exact h

/-- The sanitized baud rate is always a member of the supported set. -/
theorem sanitizeBaudRate_supported (v : Nat) :
    isSupportedUartBaudRate (sanitizeBaudRate v) = true := by
  unfold sanitizeBaudRate isSupportedUartBaudRate
  split_ifs with h
  · exact h
  · decide

/-- An unsupported stored baud rate sanitizes to the default. -/
theorem sanitizeBaudRate_default (v : Nat)
    (h : isSupportedUartBaudRate v = false) : sanitizeBaudRate v = 115200 := by
  unfold sanitizeBaudRate
  unfold isSupportedUartBaudRate at h
  simp only [h]
  rfl

/-- A string is non-empty exactly when its length is positive. -/
theorem string_ne_empty_iff_length_pos (s : String) : s ≠ "" ↔ 0 < s.length := by
  cases s with
  | mk data =>
      constructor
      · intro h
        have hd : data ≠ [] := by
          intro hnil
          exact h (by simp [hnil])
        simpa [String.length] using List.length_pos.mpr hd
      · intro h hcontra
        have : data = [] := by
          have := congrArg String.data hcontra
          simpa using this
        simp [String.length, this] at h

/-- **C10** (confirmed). Whenever `loadDeviceConfig` succeeds it sanitizes
rather than rejects: the loaded baud rate is always in the supported set and
an unsupported stored value becomes the default 115200; a stored transport
byte other than 0 or 1 becomes `Websocket`; `hasWifiCredentials` is set
exactly when the loaded SSID is non-empty. No error is reported for
out-of-range stored values (the model is total on the stored contents). -/
theorem C10_load_sanitizes (prefs : DevicePrefs) :
    isSupportedUartBaudRate (loadDeviceConfig prefs).uartBaudRate = true ∧
    (isSupportedUartBaudRate (prefs.uartBaud.getD UART_BAUD_DEFAULT) = false →
      (loadDeviceConfig prefs).uartBaudRate = 115200) ∧
    (∀ b, prefs.transportByte = some b → b ≠ 0 → b ≠ 1 →
      (loadDeviceConfig prefs).transport = TransportType.Websocket) ∧
    ((loadDeviceConfig prefs).hasWifiCredentials = true ↔
      readPreferenceString prefs.ssid WIFI_SSID_MAX_LENGTH ≠ "") := by
  refine ⟨?_, ?_, ?_, ?_⟩
  · exact sanitizeBaudRate_supported _
  · intro h
    exact sanitizeBaudRate_default _ h
  · intro b hb h0 h1
    show sanitizeTransport (prefs.transportByte.getD 1) = TransportType.Websocket
    rw [hb]
    unfold sanitizeTransport
    simp [h0, h1]
  · show (decide ((readPreferenceString prefs.ssid WIFI_SSID_MAX_LENGTH).length > 0)) = true ↔ _
    rw [string_ne_empty_iff_length_pos]
    simp

/-- Witness for C10: a stored baud of 12345, transport byte 7 and SSID `x`
load as baud 115200, transport `Websocket` and credentials present. -/
theorem C10_witness :
    isSupportedUartBaudRate
      (loadDeviceConfig
        { uartBaud := some 12345, transportByte := some 7,
          ssid := some "x" }).uartBaudRate = true ∧
    (loadDeviceConfig
      { uartBaud := some 12345, transportByte := some 7,
        ssid := some "x" }).uartBaudRate = 115200 ∧
    (loadDeviceConfig
      { uartBaud := some 12345, transportByte := some 7,
        ssid := some "x" }).transport = TransportType.Websocket ∧
    (loadDeviceConfig
      { uartBaud := some 12345, transportByte := some 7,
        ssid := some "x" }).hasWifiCredentials = true := by
  have h := C10_load_sanitizes
    { uartBaud := some 12345, transportByte := some 7, ssid := some "x" }
  exact ⟨h.1, h.2.1 (by decide), h.2.2.1 7 rfl (by decide) (by decide),
    h.2.2.2.mpr (by decide)⟩

theorem uartRun_short (qp qa : Bool) (input : List Nat)
    (h : ∀ b ∈ input, b ≠ 10 ∧ b ≠ 13) :
    ∀ buf : List Nat, buf.length + input.length ≤ COMMAND_MESSAGE_MAX_LENGTH →
      uartRun qp qa buf input = (buf ++ input, [], []) := by
  induction input with
  | nil => intro buf hlen; simp [uartRun]
  | cons c rest ih =>
      intro buf hlen
      obtain ⟨hc10, hc13⟩ := h c (by simp)
      have hstep : uartStep qp qa buf c = (buf ++ [c], [], []) := by
        unfold uartStep
        rw [if_neg hc13, if_neg hc10, if_neg (by simp at hlen ⊢; omega)]
      have hrest := ih (fun b hb => h b (by simp [hb])) (buf ++ [c])
        (by simp at hlen ⊢; omega)
      simp only [uartRun, hstep, hrest]
      simp

theorem uartRun_no_newline (qp qa : Bool) (input : List Nat)
    (h : ∀ b ∈ input, b ≠ 10 ∧ b ≠ 13) :
    ∀ buf : List Nat, buf.length ≤ COMMAND_MESSAGE_MAX_LENGTH →
      (uartRun qp qa buf input).2.1 =
        List.replicate ((buf.length + input.length) / 513) UartEmit.inputTooLong ∧
      (uartRun qp qa buf input).2.2 = [] ∧
      (uartRun qp qa buf input).1.length = (buf.length + input.length) % 513 := by
  induction input with
  | nil =>
      intro buf hlen
      unfold COMMAND_MESSAGE_MAX_LENGTH at hlen
      refine ⟨?_, by simp [uartRun], ?_⟩
      · have hz : buf.length / 513 = 0 := Nat.div_eq_of_lt (by omega)
        simp [uartRun, hz]
      · have hz : buf.length % 513 = buf.length := Nat.mod_eq_of_lt (by omega)
        simp [uartRun, hz]
  | cons c rest ih =>
      intro buf hlen
      obtain ⟨hc10, hc13⟩ := h c (by simp)
      have hrest : ∀ b ∈ rest, b ≠ 10 ∧ b ≠ 13 :=
        fun b hb => h b (List.mem_cons_of_mem _ hb)
      by_cases hfull : buf.length ≥ COMMAND_MESSAGE_MAX_LENGTH
      · have hbuf : buf.length = 512 := by
          unfold COMMAND_MESSAGE_MAX_LENGTH at hlen hfull; omega
        have hstep : uartStep qp qa buf c = ([], [.inputTooLong], []) := by
          unfold uartStep
          rw [if_neg hc13, if_neg hc10, if_pos hfull]
        obtain ⟨ih1, ih2, ih3⟩ := ih hrest [] (by simp)
        simp only [uartRun, hstep]
        rcases hrun : uartRun qp qa [] rest with ⟨b2, e2, m2⟩
        rw [hrun] at ih1 ih2 ih3
        simp only at ih1 ih2 ih3
        refine ⟨?_, by simpa using ih2, ?_⟩
        · have harith : (buf.length + (rest.length + 1)) / 513 =
              (0 + rest.length) / 513 + 1 := by
            rw [hbuf]
            have : 512 + (rest.length + 1) = rest.length + 513 := by omega
            rw [this, Nat.add_div_right _ (by omega)]
            simp
          simp only [List.length_cons, harith, List.replicate_succ]
          simpa using ih1
        · have harith : (buf.length + (rest.length + 1)) % 513 =
              (0 + rest.length) % 513 := by
            rw [hbuf]
            have : 512 + (rest.length + 1) = rest.length + 513 := by omega
            rw [this, Nat.add_mod_right]
            simp
          simp only [List.length_cons, harith]
          simpa using ih3
      · have hstep : uartStep qp qa buf c = (buf ++ [c], [], []) := by
          unfold uartStep
          rw [if_neg hc13, if_neg hc10, if_neg hfull]
        obtain ⟨ih1, ih2, ih3⟩ := ih hrest (buf ++ [c])
          (by simp; unfold COMMAND_MESSAGE_MAX_LENGTH at hfull ⊢; omega)
        simp only [uartRun, hstep]
        rcases hrun : uartRun qp qa (buf ++ [c]) rest with ⟨b2, e2, m2⟩
        rw [hrun] at ih1 ih2 ih3
        simp only at ih1 ih2 ih3
        have harith : buf.length + (rest.length + 1) =
            (buf ++ [c]).length + rest.length := by simp; omega
        refine ⟨?_, by simpa using ih2, ?_⟩
        · simp only [List.length_cons, harith]
          simpa using ih1
        · simp only [List.length_cons, harith]
          simpa using ih3

theorem uartRun_append (qp qa : Bool) (xs : List Nat) : ∀ (ys buf : List Nat),
    uartRun qp qa buf (xs ++ ys) =
      ((uartRun qp qa (uartRun qp qa buf xs).1 ys).1,
       (uartRun qp qa buf xs).2.1 ++ (uartRun qp qa (uartRun qp qa buf xs).1 ys).2.1,
       (uartRun qp qa buf xs).2.2 ++ (uartRun qp qa (uartRun qp qa buf xs).1 ys).2.2) := by
  induction xs with
  | nil => intro ys buf; simp [uartRun]
  | cons c rest ih =>
      intro ys buf
      rcases hstep : uartStep qp qa buf c with ⟨b1, e1, m1⟩
      simp only [List.cons_append, uartRun, hstep, List.append_eq]
      rw [ih ys b1]
      simp [List.append_assoc]

set_option maxRecDepth 100000 in
/-- Counterexample for **C7**: a single 1026-byte line with no newline makes
the UART assembler emit the `Input too long` error twice (once when the
513th byte arrives and once when the 1026th does), not exactly once as the
claim states. -/
theorem C7_counterexample :
    (uartRun true true [] (List.replicate 1026 97 ++ [10])).2.1 =
      [UartEmit.inputTooLong, UartEmit.inputTooLong] ∧
    ¬((uartRun true true [] (List.replicate 1026 97 ++ [10])).2.1.length = 1) := by
  have h1 : (uartRun true true [] (List.replicate 1026 97 ++ [10])).2.1 =
      [UartEmit.inputTooLong, UartEmit.inputTooLong] := by decide
  exact ⟨h1, by rw [h1]; decide⟩

/-- **C7** (amended). An oversize UART line of `L` non-newline bytes makes
the transport emit the `Input too long` error once for every 513 bytes
accumulated (`L / 513` times — exactly once only when `513 ≤ L ≤ 1025`),
discarding the assembly buffer at each overflow and enqueueing nothing for
that input; a subsequent complete valid line of at most 512 bytes is then
assembled and enqueued normally. -/
theorem C7_oversize_line_handling :
    (∀ (input : List Nat) (qp qa : Bool), (∀ b ∈ input, b ≠ 10 ∧ b ≠ 13) →
       (uartRun qp qa [] input).2.1 =
         List.replicate (input.length / 513) UartEmit.inputTooLong ∧
       (uartRun qp qa [] input).2.2 = []) ∧
    (∀ line : List Nat, (∀ b ∈ line, b ≠ 10 ∧ b ≠ 13) → 0 < line.length →
       line.length ≤ COMMAND_MESSAGE_MAX_LENGTH →
       uartRun true true [] (line ++ [10]) =
         ([], [], [commandMessageOfBytes line])) := by
  constructor
  · intro input qp qa h
    obtain ⟨h1, h2, _⟩ := uartRun_no_newline qp qa input h [] (by simp)
    constructor
    · simpa using h1
    · exact h2
  · intro line h hpos hlen
    have h1 : uartRun true true [] line = (line, [], []) := by
      have := uartRun_short true true line h []
        (by simp only [List.length_nil, Nat.zero_add]; exact hlen)
      simpa using this
    have happ := uartRun_append true true line [10] []
    rw [h1] at happ
    simp only at happ
    have hstep : uartStep true true line 10 = ([], [], [commandMessageOfBytes line]) := by
      unfold uartStep
      rw [if_neg (by omega), if_pos rfl, if_pos (by simp [hpos]), if_pos rfl]
    have h2 : uartRun true true line [10] = ([], [], [commandMessageOfBytes line]) := by
      simp only [uartRun, hstep]
      simp [uartRun]
    rw [h2] at happ
    simpa using happ

set_option maxRecDepth 10000 in
/-- Witness for the amended C7: a 600-byte line emits the error exactly
once, and the two-byte line `HI` plus newline enqueues exactly one
message. -/
theorem C7_witness :
    (uartRun true true [] (List.replicate 600 97)).2.1 = [UartEmit.inputTooLong] ∧
    uartRun true true [] ([72, 73] ++ [10]) =
      ([], [], [commandMessageOfBytes [72, 73]]) := by
  constructor
  · have h := C7_oversize_line_handling.1 (List.replicate 600 97) true true
      (fun b hb => by have := List.eq_of_mem_replicate hb; omega)
    rw [h.1]
    decide
  · exact C7_oversize_line_handling.2 [72, 73] (by decide) (by decide) (by decide)

/-- Counterexample for **C6**: `schedule_connect` (via
`schedule_connect_internal`) returns false for the non-empty SSID
`HomeNet` when a connect attempt is already in flight
(`wifi_connect_busy_`), so an empty SSID is not the only input returning
false. -/
theorem C6_counterexample :
    ("HomeNet" ≠ "") ∧
    (schedule_connect_internal "HomeNet" "pw" false
      { busy := true }).1 = false := by
  exact ⟨by decide, by decide⟩

/-- **C6** (amended). `schedule_connect_internal` returns true exactly when
the SSID is non-empty, no connect attempt is busy or already queued, the
worker queue and task exist (or could be created) and the queue send
succeeds; an empty SSID always returns false. -/
theorem C6_schedule_connect_result (ssid password : String) (keep : Bool)
    (env : ScheduleEnv) :
    ((schedule_connect_internal ssid password keep env).1 = true ↔
      (ssid ≠ "" ∧ env.busy = false ∧ env.queueCreated = true ∧
       env.taskCreated = true ∧ env.pendingRequests = 0 ∧ env.sendOk = true)) ∧
    (ssid = "" → (schedule_connect_internal ssid password keep env).1 = false) := by
  constructor
  · unfold schedule_connect_internal
    split_ifs with h1 h2 h3 h4 <;> simp_all
    · intro hq ht
      rcases h3 with h3 | h3
      · rw [hq] at h3
        exact absurd h3 (by decide)
      · rw [ht] at h3
        exact absurd h3 (by decide)
    · intro h5
      rw [h5] at h4
      exact absurd h4 (by decide)
  · intro h
    unfold schedule_connect_internal
    rw [if_pos (by simp [h])]

/-- Witness for the amended C6: with a non-empty SSID and an idle,
initialized worker the call succeeds, and with an empty SSID it fails. -/
theorem C6_witness :
    (schedule_connect_internal "Home" "pw" false {}).1 = true ∧
    (schedule_connect_internal "" "pw" false {}).1 = false := by
  refine ⟨?_, ?_⟩
  · exact (C6_schedule_connect_result "Home" "pw" false {}).1.mpr
      ⟨by decide, rfl, rfl, rfl, rfl, rfl⟩
  · exact (C6_schedule_connect_result "" "pw" false {}).2 rfl

/-- Counterexample for **C3**: in the `main.cpp` coordinator a partial line
`abc` buffered under UART survives a switch to WebSocket and back
(`applyTransportMode` never clears `inputBuffer`), and is then merged with
the next UART bytes: the delivered command is `abcdef`, which carries the
stale pre-switch bytes — the in-progress assembly buffer was not discarded
on the transport change. -/
theorem C3_counterexample :
    (let st1 := (mainTransportPumpUart
        { mode := TransportMode.Uart, serialActive := true } [97, 98, 99]).1
     let st2 := (applyTransportMode TransportMode.Websocket true st1).2.1
     let st3 := (applyTransportMode TransportMode.Uart true st2).2.1
     let pump := mainTransportPumpUart st3 [100, 101, 102, 10]
     st2.mode = TransportMode.Websocket ∧ st2.inputBuffer = [97, 98, 99] ∧
     pump.2.1 = [[97, 98, 99, 100, 101, 102]]) := by
  decide

/-- **C3** (amended). The modular UART transport does discard its
in-progress assembly buffer on every transport change:
`uartTransportHandleConfigChange` resets the buffer whenever the configured
transport differs from the last-applied one. The `main.cpp` coordinator's
`applyTransportMode`, by contrast, leaves its `inputBuffer` untouched (see
the counterexample). -/
theorem C3_buffer_discarded_on_change (uartSettingsChanged : Bool)
    (config : DeviceConfig) (st : UartState)
    (h : config.transport ≠ st.lastTransport) :
    (uartTransportHandleConfigChange uartSettingsChanged config st).1.buffer = [] ∧
    (uartTransportHandleConfigChange uartSettingsChanged config st).1.lastTransport
      = config.transport := by
  unfold uartTransportHandleConfigChange
  simp only [h]
  split_ifs <;> simp_all

/-- Witness for the amended C3: switching from UART to WebSocket with bytes
`abc` buffered clears the buffer. -/
theorem C3_witness :
    (uartTransportHandleConfigChange false
      { transport := TransportType.Websocket }
      { buffer := [97, 98, 99] }).1.buffer = [] ∧
    (uartTransportHandleConfigChange false
      { transport := TransportType.Websocket }
      { buffer := [97, 98, 99] }).1.lastTransport = TransportType.Websocket := by
  exact C3_buffer_discarded_on_change false
    { transport := TransportType.Websocket } { buffer := [97, 98, 99] }
    (by decide)

theorem applyIdentity_fixed (config : DeviceConfig) (apSsid : String)
    (cb ca : Bool) (st : BleIdentityState)
    (hn : st.kbDeviceName = getEffectiveBleDeviceName config apSsid)
    (hm : st.kbDeviceManufacturer =
      (if config.hasBleManufacturerName && config.bleManufacturerName.length > 0
       then config.bleManufacturerName
       else if st.defaultManufacturerCaptured then st.defaultBleManufacturer
       else st.kbDeviceManufacturer)) :
    applyIdentityFromConfig config apSsid cb ca st = (st, []) := by
  obtain ⟨sa, kn, km, dmc, dm, lc, rs⟩ := st
  simp only at hn hm
  simp only [applyIdentityFromConfig]
  rw [← hn, ← hm]
  cases sa <;> simp

theorem applyIdentity_post (config : DeviceConfig) (apSsid : String)
    (cb ca : Bool) (st : BleIdentityState) :
    (applyIdentityFromConfig config apSsid cb ca st).1.kbDeviceName =
      getEffectiveBleDeviceName config apSsid ∧
    (applyIdentityFromConfig config apSsid cb ca st).1.kbDeviceManufacturer =
      (if config.hasBleManufacturerName && config.bleManufacturerName.length > 0
       then config.bleManufacturerName
       else if st.defaultManufacturerCaptured then st.defaultBleManufacturer
       else st.kbDeviceManufacturer) ∧
    (applyIdentityFromConfig config apSsid cb ca st).1.defaultManufacturerCaptured =
      st.defaultManufacturerCaptured ∧
    (applyIdentityFromConfig config apSsid cb ca st).1.defaultBleManufacturer =
      st.defaultBleManufacturer ∧
    (applyIdentityFromConfig config apSsid cb ca st).1.stackActive =
      st.stackActive ∧
    (applyIdentityFromConfig config apSsid cb ca st).1.restarts ≤
      st.restarts + 1 := by
  obtain ⟨sa, kn, km, dmc, dm, lc, rs⟩ := st
  simp only [applyIdentityFromConfig]
  cases sa <;> split_ifs <;> simp_all

/-- **C5** (confirmed). Identity change idempotence: calling
`applyIdentityFromConfig` twice with no intervening configuration change
performs the BLE stack teardown/restart at most once — the second call
observes that neither the device name nor the manufacturer differs from the
desired values and returns without restarting the stack (it changes nothing
and emits no events). -/
theorem C5_identity_idempotent (config : DeviceConfig) (apSsid : String)
    (cb ca cb2 ca2 : Bool) (st : BleIdentityState) :
    applyIdentityFromConfig config apSsid cb2 ca2
        (applyIdentityFromConfig config apSsid cb ca st).1 =
      ((applyIdentityFromConfig config apSsid cb ca st).1, []) ∧
    (applyIdentityFromConfig config apSsid cb ca st).1.restarts ≤
      st.restarts + 1 := by
  obtain ⟨hn, hm, hdmc, hdm, hsa, hrs⟩ := applyIdentity_post config apSsid cb ca st
  refine ⟨?_, hrs⟩
  apply applyIdentity_fixed config apSsid cb2 ca2 _ hn
  by_cases hM : (config.hasBleManufacturerName
      && config.bleManufacturerName.length > 0) = true
  · rw [hm, hdmc, hdm, if_pos hM, if_pos hM]
  · rw [hm, hdmc, hdm, if_neg hM, if_neg hM]
    by_cases hd : st.defaultManufacturerCaptured = true
    · rw [if_pos hd, if_pos hd]
    · rw [if_neg hd, if_neg hd]

/-- Counterexample for **C4**: with stored credentials and repeated
failures, `websocketTransportLoop` starts association attempts at
t = 30001, 60002 and 90003 ms — the gap after the second consecutive
failure is 30001 ms, unchanged from the first gap. Exponential doubling
from a 30 s base with ±10% jitter would require the post-second-failure gap
to be at least 54000 ms, so the interval neither doubles nor carries
jitter; it is the fixed `WIFI_RETRY_INTERVAL_MS`. -/
theorem C4_counterexample :
    (let trace := (runWsLoop
        { transport := TransportType.Websocket, wifi := ⟨"Home", "pw"⟩,
          hasWifiCredentials := true } {} "ap"
        { apActive := true, dnsActive := true }
        [(false, 30001), (false, 50002), (false, 60002), (false, 80003),
         (false, 90003)]).2
     trace.filterMap (fun p => match p.2 with
       | WsAction.wifiBegin _ _ => some p.1
       | _ => none) = [30001, 60002, 90003] ∧
     90003 - 60002 = 30001 ∧ 30001 < 54000) := by
  decide

/-- **C4** (amended). While disconnected with stored credentials the loop
throttles reconnect attempts by the fixed constant
`WIFI_RETRY_INTERVAL_MS = 30000`: an attempt is initiated on a tick exactly
when more than 30000 ms have passed since the last attempt, independent of
how many attempts have failed. The threshold is constant, so the scheduled
retry interval never decreases across consecutive failures and never
exceeds a 5-minute cap — but it does not double and carries no jitter. -/
theorem C4_retry_gating (config : DeviceConfig) (env : WsEnv) (apSsid : String)
    (status : Bool) (now : Nat) (st : WsTransportState)
    (h1 : st.staConnecting = false) (h2 : st.staConnected = false) :
    (beginsAttempt (websocketTransportLoop config env apSsid status now st).2 = true ↔
      (config.hasWifiCredentials = true ∧ config.wifi.ssid ≠ "" ∧
       now - st.lastConnectionAttempt > WIFI_RETRY_INTERVAL_MS)) ∧
    WIFI_RETRY_INTERVAL_MS = 30000 ∧ WIFI_RETRY_INTERVAL_MS ≤ 300000 := by
  refine ⟨?_, rfl, by decide⟩
  unfold websocketTransportLoop connectToConfiguredNetwork startAccessPoint
  rw [h1, h2]
  simp only [Bool.false_eq_true, if_false]
  split_ifs <;> simp_all [beginsAttempt]

/-- Witness for the amended C4: 30001 ms after the last attempt, a tick
initiates a new association attempt. -/
theorem C4_witness :
    beginsAttempt (websocketTransportLoop
      { transport := TransportType.Websocket, wifi := ⟨"Home", "pw"⟩,
        hasWifiCredentials := true } {} "ap" false 30001
      { apActive := true, dnsActive := true }).2 = true := by
  exact (C4_retry_gating
    { transport := TransportType.Websocket, wifi := ⟨"Home", "pw"⟩,
      hasWifiCredentials := true } {} "ap" false 30001
    { apActive := true, dnsActive := true } rfl rfl).1.mpr
    ⟨rfl, by decide, by decide⟩

theorem handleConfigUartWifi_reject (doc : Json) (cfg1 : DeviceConfig)
    (c1 : Bool) (env : WsEnv) (apSsid : String) (now : Nat)
    (st : WsTransportState) (b : Int)
    (hb : (doc.member "uart").member "baud" = Json.num b)
    (hun : ¬(0 ≤ b ∧ b < 4294967296 ∧ isSupportedUartBaudRate b.toNat = true)) :
    (handleConfigUartWifi doc cfg1 c1 env apSsid now st =
      (HttpResponse.error 400 "Invalid UART baud rate", cfg1, st, [])) ∨
    (handleConfigUartWifi doc cfg1 c1 env apSsid now st =
      (HttpResponse.error 400 "Unsupported UART baud rate", cfg1, st, [])) := by
  have huart : (doc.member "uart").isNull = false := by
    cases h : doc.member "uart" <;> simp [Json.isNull]
    rw [h] at hb
    simp [Json.member] at hb
  unfold handleConfigUartWifi
  by_cases h32 : (Json.num b).isUInt32 = true
  · have hsup : isSupportedUartBaudRate b.toNat = false := by
      simp [Json.isUInt32] at h32
      rcases Bool.eq_false_or_eq_true (isSupportedUartBaudRate b.toNat) with h | h
      · exact absurd ⟨h32.1, h32.2, h⟩ hun
      · exact h
    right
    simp only [huart, Bool.not_false, if_true]
    simp only [hb]
    simp [h32, hsup, Json.asInt, Json.isNull]
  · have h32f : (Json.num b).isUInt32 = false := by
      revert h32
      cases (Json.num b).isUInt32 <;> simp
    left
    simp only [huart, Bool.not_false, if_true]
    simp only [hb]
    simp [h32f, Json.isNull]

/-- **C2** (amended). A `POST /api/config` request carrying a baud value
outside the fixed supported set is answered with an error and leaves
`uartBaudRate` unchanged in memory, nothing is persisted and no UART
notification fires — but an accompanying `transport` field in the same
rejected request may already have mutated the in-memory transport (see the
counterexample), so the rejection is not free of partial mutation of the
configuration in general. -/
theorem C2_unsupported_baud_rejected (doc : Json) (config : DeviceConfig)
    (env : WsEnv) (apSsid : String) (now : Nat) (st : WsTransportState)
    (b : Int)
    (hb : (doc.member "uart").member "baud" = Json.num b)
    (hun : ¬(0 ≤ b ∧ b < 4294967296 ∧ isSupportedUartBaudRate b.toNat = true)) :
    (handleConfigPost doc config env apSsid now st).1.isError = true ∧
    (handleConfigPost doc config env apSsid now st).2.1.uartBaudRate =
      config.uartBaudRate ∧
    (∀ c, WsAction.persistConfig c ∉
      (handleConfigPost doc config env apSsid now st).2.2.2) ∧
    WsAction.notifyUartConfigChanged ∉
      (handleConfigPost doc config env apSsid now st).2.2.2 ∧
    (handleConfigPost doc config env apSsid now st).2.2.1 = st := by
  unfold handleConfigPost
  by_cases ht : (doc.member "transport").isNull = true
  · simp only [ht, Bool.not_true, Bool.false_eq_true, if_false]
    rcases handleConfigUartWifi_reject doc config false env apSsid now st b hb hun
      with h | h <;> rw [h] <;> simp [HttpResponse.isError]
  · have hf : (doc.member "transport").isNull = false := by
      revert ht
      cases (doc.member "transport").isNull <;> simp
    simp only [hf, Bool.not_false, if_true]
    cases hp : parseTransportType ((doc.member "transport").asArduinoString) with
    | none => simp [HttpResponse.isError]
    | some t =>
        dsimp only
        by_cases htr : config.transport ≠ t
        · rw [if_pos htr]
          rcases handleConfigUartWifi_reject doc { config with transport := t }
            true env apSsid now st b hb hun with h | h <;> rw [h] <;>
            simp [HttpResponse.isError]
        · rw [if_neg htr]
          rcases handleConfigUartWifi_reject doc config false env apSsid now st
            b hb hun with h | h <;> rw [h] <;> simp [HttpResponse.isError]

/-- Witness for the amended C2: a request carrying baud 10000 (not in the
supported set) is rejected and leaves the in-memory baud rate unchanged. -/
theorem C2_witness :
    (handleConfigPost (Json.obj [("uart", Json.obj [("baud", Json.num 10000)])])
      { transport := TransportType.Websocket } {} "ap" 0 {}).1.isError = true ∧
    (handleConfigPost (Json.obj [("uart", Json.obj [("baud", Json.num 10000)])])
      { transport := TransportType.Websocket } {} "ap" 0 {}).2.1.uartBaudRate =
      ({ transport := TransportType.Websocket } : DeviceConfig).uartBaudRate := by
  have h := C2_unsupported_baud_rejected
    (Json.obj [("uart", Json.obj [("baud", Json.num 10000)])])
    { transport := TransportType.Websocket } {} "ap" 0 {} 10000 rfl
    (by intro hcon; exact absurd hcon.2.2 (by decide))
  exact ⟨h.1, h.2.1⟩

/-- Counterexample for **C2**: the request
`{transport: uart, uart: {baud: 10000}}` is rejected with an error, yet the
in-memory configuration's transport has already been switched from
Websocket to Uart — a partial mutation of the configuration on a rejected
request. -/
theorem C2_counterexample :
    (handleConfigPost
      (Json.obj [("transport", Json.str "uart"),
                 ("uart", Json.obj [("baud", Json.num 10000)])])
      { transport := TransportType.Websocket, uartBaudRate := 115200,
        wifi := ⟨"OldNet", "oldpw"⟩, hasWifiCredentials := true }
      {} "ap" 1000 { staConnected := true }).1 =
      HttpResponse.error 400 "Unsupported UART baud rate" ∧
    (handleConfigPost
      (Json.obj [("transport", Json.str "uart"),
                 ("uart", Json.obj [("baud", Json.num 10000)])])
      { transport := TransportType.Websocket, uartBaudRate := 115200,
        wifi := ⟨"OldNet", "oldpw"⟩, hasWifiCredentials := true }
      {} "ap" 1000 { staConnected := true }).2.1.transport =
      TransportType.Uart ∧
    TransportType.Uart ≠ TransportType.Websocket := by
  refine ⟨by decide, by decide, by decide⟩

/-- Counterexample for **C1**: while connected to `OldNet`, posting new
credentials `NewNet` makes `handleConfigPost` persist the NEW credentials
immediately — before the association attempt has any outcome — and after
the 20 s connect timeout expires the loop simply abandons the attempt: no
action re-associates to the previous network (there is no snapshot to roll
back to) and the persisted credentials are `NewNet`, not the old ones. -/
theorem C1_counterexample :
    (let r := handleConfigPost
        (Json.obj [("wifi", Json.obj [("ssid", Json.str "NewNet"),
                   ("password", Json.str "newpw")])])
        { transport := TransportType.Websocket, uartBaudRate := 115200,
          wifi := ⟨"OldNet", "oldpw"⟩, hasWifiCredentials := true }
        {} "ap" 1000 { staConnected := true }
     let follow := runWsLoop r.2.1 {} "ap" r.2.2.1
        [(false, 21002), (false, 25000)]
     r.1 = HttpResponse.ok ∧
     WsAction.persistConfig r.2.1 ∈ r.2.2.2 ∧
     r.2.1.wifi.ssid = "NewNet" ∧
     r.2.1.wifi.ssid ≠ "OldNet" ∧
     follow.1.staConnecting = false ∧ follow.1.staConnected = false ∧
     ((r.2.2.2 ++ follow.2.map Prod.snd).all (fun a =>
        match a with
        | WsAction.wifiBegin s _ => s == "NewNet"
        | WsAction.persistConfig c => c.wifi.ssid == "NewNet"
        | _ => true)) = true) := by
  decide

/-- **C1** (amended). There is no provisional switch with rollback: the
WebSocket configuration handler persists new non-empty credentials
immediately, before the association attempt has any outcome; and the
station manager's `connect_to_station_internal`, which takes no record of
any previous association, returns false on a failed attempt without ever
saving credentials and only ever associates to the newly requested SSID
(falling back to the access point rather than re-associating to a
snapshotted network). Credentials are saved by the station manager only on
a successful connection. -/
theorem C1_no_rollback :
    (∀ (ssid pwd : String) (config : DeviceConfig) (env : WsEnv)
       (apSsid : String) (now : Nat) (st : WsTransportState),
       ssid ≠ "" → config.wifi.ssid ≠ ssid →
       WsAction.persistConfig
           (handleConfigPost (Json.obj [("wifi", Json.obj
             [("ssid", Json.str ssid), ("password", Json.str pwd)])])
             config env apSsid now st).2.1 ∈
         (handleConfigPost (Json.obj [("wifi", Json.obj
           [("ssid", Json.str ssid), ("password", Json.str pwd)])])
           config env apSsid now st).2.2.2 ∧
       (handleConfigPost (Json.obj [("wifi", Json.obj
         [("ssid", Json.str ssid), ("password", Json.str pwd)])])
         config env apSsid now st).2.1.wifi.ssid = ssid) ∧
    (∀ (ssid pwd : String) (keep startOk saveOk : Bool) (now : Nat)
       (st : WmState), ssid ≠ "" →
       (connect_to_station_internal ssid pwd keep startOk false saveOk
         now st).1 = false ∧
       (∀ s p, WmAction.saveCredentials s p ∉
         (connect_to_station_internal ssid pwd keep startOk false saveOk
           now st).2.2) ∧
       (∀ s p, WmAction.wifiBegin s p ∈
         (connect_to_station_internal ssid pwd keep startOk false saveOk
           now st).2.2 → s = ssid ∧ p = pwd)) := by
  constructor
  · intro ssid pwd config env apSsid now st hne hch
    have hlen : 0 < ssid.length := (string_ne_empty_iff_length_pos ssid).mp hne
    unfold handleConfigPost handleConfigUartWifi
    simp [Json.member, Json.isNull, Json.asStrOr, Json.asStr, Json.asBool,
      hlen, hch]
  · intro ssid pwd keep startOk saveOk now st hne
    have hbeq : (ssid == "") = false := by simp [hne]
    unfold connect_to_station_internal
    simp only [hbeq, Bool.false_eq_true, if_false]
    cases keep <;> cases startOk <;>
      simp [wm_start_ap, shutdown_access_point, ensure_sta_only_mode,
        ensure_ap_only_mode, request_ap_sta_mode]

/-- Witness for the amended C1: a concrete credential change persists the
new credentials at once, and a concrete failed station attempt returns
false without saving. -/
theorem C1_witness :
    (WsAction.persistConfig
        (handleConfigPost (Json.obj [("wifi", Json.obj
          [("ssid", Json.str "NewNet"), ("password", Json.str "newpw")])])
          { transport := TransportType.Websocket, uartBaudRate := 115200,
            wifi := ⟨"OldNet", "oldpw"⟩, hasWifiCredentials := true }
          {} "ap" 1000 { staConnected := true }).2.1 ∈
      (handleConfigPost (Json.obj [("wifi", Json.obj
        [("ssid", Json.str "NewNet"), ("password", Json.str "newpw")])])
        { transport := TransportType.Websocket, uartBaudRate := 115200,
          wifi := ⟨"OldNet", "oldpw"⟩, hasWifiCredentials := true }
        {} "ap" 1000 { staConnected := true }).2.2.2) ∧
    (connect_to_station_internal "Home" "pw" false true false true 0 {}).1 =
      false := by
  refine ⟨?_, ?_⟩
  · exact (C1_no_rollback.1 "NewNet" "newpw"
      { transport := TransportType.Websocket, uartBaudRate := 115200,
        wifi := ⟨"OldNet", "oldpw"⟩, hasWifiCredentials := true }
      {} "ap" 1000 { staConnected := true } (by decide) (by decide)).1
  · exact (C1_no_rollback.2 "Home" "pw" false true true 0 {} (by decide)).1


/-! ## C8: response multiplicity of the BLE command processor -/

theorem collectKeyCodesArr_spec (maxCount : Nat) :
    ∀ (items : List Json) (acc : List Nat),
      (collectKeyCodesArr maxCount items acc).1.length ≤ 1 ∧
      ((collectKeyCodesArr maxCount items acc).2.isSome = true →
        (collectKeyCodesArr maxCount items acc).1 = []) := by
  intro items
  induction items with
  | nil =>
      intro acc
      constructor <;> simp [collectKeyCodesArr]
  | cons key rest ih =>
      intro acc
      unfold collectKeyCodesArr
      split_ifs with h1
      · simp
      · cases hp : parseKeyCode key with
        | none => simp [hp]
        | some code => simpa [hp] using ih (acc ++ [code])

theorem collectKeyCodes_spec (source : Json) (maxCount : Nat) :
    (collectKeyCodes source maxCount).1.length ≤ 1 ∧
    ((collectKeyCodes source maxCount).2.isSome = true →
      (collectKeyCodes source maxCount).1 = []) := by
  unfold collectKeyCodes
  cases source with
  | arr items => exact collectKeyCodesArr_spec maxCount items []
  | null => constructor <;> simp
  | bool b => rcases hp : parseKeyCode (Json.bool b) with _ | c <;> simp [hp]
  | num n => rcases hp : parseKeyCode (Json.num n) with _ | c <;> simp [hp]
  | str s => rcases hp : parseKeyCode (Json.str s) with _ | c <;> simp [hp]
  | obj fields =>
      rcases hp : parseKeyCode (Json.obj fields) with _ | c <;> simp [hp]

theorem extractKeyCodes_spec (command : Json) :
    (extractKeyCodes command).1.length ≤ 1 ∧
    ((extractKeyCodes command).2.isSome = true →
      (extractKeyCodes command).1 = []) := by
  unfold extractKeyCodes
  split_ifs with h1 h2 h3
  · exact collectKeyCodes_spec _ _
  · exact collectKeyCodes_spec _ _
  · exact collectKeyCodes_spec _ _
  · constructor <;> simp

theorem handleKeyboard_le_one (connected : Bool) (command : Json) :
    (handleKeyboard connected command).length ≤ 1 := by
  unfold handleKeyboard
  obtain ⟨hlen, hsome⟩ := extractKeyCodes_spec command
  rcases he : extractKeyCodes command with ⟨emits, r⟩
  rw [he] at hlen hsome
  simp only at hlen hsome
  cases r <;> split_ifs <;> simp_all <;> split_ifs <;> simp_all

theorem parseButtonMaskArr_spec :
    ∀ (items : List Json) (mask : Nat),
      (parseButtonMaskArr items mask).1.length ≤ 1 ∧
      ((parseButtonMaskArr items mask).2.isSome = true →
        (parseButtonMaskArr items mask).1 = []) := by
  intro items
  induction items with
  | nil =>
      intro mask
      constructor <;> simp [parseButtonMaskArr]
  | cons button rest ih =>
      intro mask
      unfold parseButtonMaskArr
      split_ifs with h1 h2
      · cases hb : addButtonByName (upperAscii (trimAscii (button.asStrOr ""))) mask with
        | none => simp [hb]
        | some mask2 => simpa [hb] using ih mask2
      · exact ih _
      · simp

theorem parseButtonMask_spec (value : Json) :
    (parseButtonMask value).1.length ≤ 1 ∧
    ((parseButtonMask value).2.isSome = true →
      (parseButtonMask value).1 = []) := by
  cases value with
  | arr items => simpa [parseButtonMask] using parseButtonMaskArr_spec items 0
  | str s =>
      rcases hb : addButtonByName (upperAscii (trimAscii s)) 0 with _ | m <;>
        simp [parseButtonMask, hb]
  | num n => constructor <;> simp [parseButtonMask]
  | bool b => constructor <;> simp [parseButtonMask]
  | null => constructor <;> simp [parseButtonMask]
  | obj fields => constructor <;> simp [parseButtonMask]

set_option maxHeartbeats 1000000 in
theorem handleMouse_le_one (connected : Bool) (command : Json) :
    (handleMouse connected command).length ≤ 1 := by
  cases connected with
  | false => simp [handleMouse]
  | true =>
      obtain ⟨hlen1, hsome1⟩ := parseButtonMask_spec (command.member "buttons")
      obtain ⟨hlen2, hsome2⟩ := parseButtonMask_spec (command.member "button")
      rcases hb1 : parseButtonMask (command.member "buttons") with ⟨e1, r1⟩
      rcases hb2 : parseButtonMask (command.member "button") with ⟨e2, r2⟩
      rw [hb1] at hlen1 hsome1
      rw [hb2] at hlen2 hsome2
      simp only at hlen1 hsome1 hlen2 hsome2
      unfold handleMouse
      simp only [hb1, hb2]
      cases r1 <;> cases r2 <;> dsimp only <;> split_ifs <;> simp_all

theorem collectConsumerReportsArr_spec (maxCount : Nat) :
    ∀ (items : List Json) (acc : List String),
      (collectConsumerReportsArr maxCount items acc).1.length ≤ 1 ∧
      ((collectConsumerReportsArr maxCount items acc).2.isSome = true →
        (collectConsumerReportsArr maxCount items acc).1 = []) := by
  intro items
  induction items with
  | nil =>
      intro acc
      constructor <;> simp [collectConsumerReportsArr]
  | cons entry rest ih =>
      intro acc
      unfold collectConsumerReportsArr
      split_ifs with h1 h2
      · simp
      · simp
      · cases hr : lookupConsumerKey (upperAscii (trimAscii (entry.asStrOr ""))) with
        | none => simp [hr]
        | some report => simpa [hr] using ih (acc ++ [report])

theorem collectConsumerReports_spec (source : Json) (maxCount : Nat) :
    (collectConsumerReports source maxCount).1.length ≤ 1 ∧
    ((collectConsumerReports source maxCount).2.isSome = true →
      (collectConsumerReports source maxCount).1 = []) := by
  cases source with
  | arr items =>
      simpa [collectConsumerReports] using
        collectConsumerReportsArr_spec maxCount items []
  | str s =>
      rcases hr : lookupConsumerKey (upperAscii (trimAscii s)) with _ | rep <;>
        simp [collectConsumerReports, hr]
  | null => constructor <;> simp [collectConsumerReports]
  | bool b => constructor <;> simp [collectConsumerReports]
  | num n => constructor <;> simp [collectConsumerReports]
  | obj fields => constructor <;> simp [collectConsumerReports]

set_option maxHeartbeats 1000000 in
theorem handleConsumer_le_one (connected : Bool) (command : Json) :
    (handleConsumer connected command).length ≤ 1 := by
  cases connected with
  | false => simp [handleConsumer]
  | true =>
      obtain ⟨ha1, hs1⟩ := collectConsumerReports_spec (command.member "keys") MAX_CONSUMER_KEYS
      obtain ⟨ha2, hs2⟩ := collectConsumerReports_spec (command.member "key") MAX_CONSUMER_KEYS
      obtain ⟨ha3, hs3⟩ := collectConsumerReports_spec (command.member "code") MAX_CONSUMER_KEYS
      rcases hc1 : collectConsumerReports (command.member "keys") MAX_CONSUMER_KEYS with ⟨e1, r1⟩
      rcases hc2 : collectConsumerReports (command.member "key") MAX_CONSUMER_KEYS with ⟨e2, r2⟩
      rcases hc3 : collectConsumerReports (command.member "code") MAX_CONSUMER_KEYS with ⟨e3, r3⟩
      rw [hc1] at ha1 hs1
      rw [hc2] at ha2 hs2
      rw [hc3] at ha3 hs3
      simp only at ha1 hs1 ha2 hs2 ha3 hs3
      unfold handleConsumer
      simp only [hc1, hc2, hc3]
      cases r1 <;> cases r2 <;> cases r3 <;> dsimp only <;> split_ifs <;>
        simp_all <;> split_ifs <;> simp_all

set_option maxHeartbeats 1000000 in
/-- C8: `processCommand` (the BLE write handler in ble_command_processor.cpp)
emits at most one response per incoming command.  This refutes the spec's claim
that every command yields exactly one response: dispatch paths such as a
keyboard command with an empty `keys` array, or a mouse command whose single
`button` name is unrecognised, return no response at all (see
`C8_counterexample`). -/
theorem C8_at_most_one_response (connected : Bool) (payloadLength : Nat)
    (parsed : Option Json) (parseError : String) :
    (processCommand connected payloadLength parsed parseError).length ≤ 1 := by
  unfold processCommand
  split_ifs with h1 h2
  · simp
  · simp
  · cases parsed with
    | none => simp
    | some doc =>
        dsimp only
        rcases (doc.member "device").asStr with _ | d <;>
          rcases (doc.member "type").asStr with _ | t <;>
          dsimp only <;>
          first
            | (split_ifs <;>
               first
                 | simp
                 | exact handleKeyboard_le_one connected doc
                 | exact handleMouse_le_one connected doc
                 | exact handleConsumer_le_one connected doc)
            | simp

set_option maxRecDepth 10000 in
/-- C8 counterexample: a well-formed keyboard command with an empty `keys`
array produces zero responses, not exactly one. -/
theorem C8_counterexample :
    processCommand true 38
      (some (Json.obj [("device", Json.str "keyboard"), ("keys", Json.arr [])])) "" = []
    ∧ (processCommand true 38
        (some (Json.obj [("device", Json.str "keyboard"), ("keys", Json.arr [])])) "").length ≠ 1 := by
  constructor <;> decide
